import Mathlib

/-!
Verification development for the r2vm RV64 full-system emulator core
(src/emu/interp.rs).  Machine integers (u64, u32, ...) are modelled as
Nat with explicit reduction modulo 2 ^ 64 (resp. 2 ^ 32) at the points
where the Rust code relies on wrapping behaviour.  Physical memory is a
byte-indexed function.  External collaborators (the soft-float library,
the event loop cycle counter, the console, the host syscall shim) are
passed in as explicit parameters, mirroring the crate boundaries of the
source.
-/

namespace R2VM

/-- 2 ^ 64, the modulus of u64 arithmetic. -/
def M64 : Nat := 18446744073709551616

/-- 2 ^ 32, the modulus of u32 arithmetic. -/
def M32 : Nat := 4294967296

/-- Rust u64 wrapping_add. -/
def wadd (a b : Nat) : Nat := (a + b) % M64

/-- Rust u64 bitwise complement (operator !) restricted to 64 bits. -/
def unot (x : Nat) : Nat := (M64 - 1) ^^^ x

/-- Reinterpret the low 32 bits as i32 and sign-extend to u64
(Rust expression: x as i32 as u64). -/
def sext32 (x : Nat) : Nat :=
  if x % M32 < 2 ^ 31 then x % M32 else x % M32 + (M64 - M32)

/-- Reinterpret the low 16 bits as i16 and sign-extend to u64. -/
def sext16 (x : Nat) : Nat :=
  if x % 2 ^ 16 < 2 ^ 15 then x % 2 ^ 16 else x % 2 ^ 16 + (M64 - 2 ^ 16)

/-- Reinterpret the low 8 bits as i8 and sign-extend to u64. -/
def sext8 (x : Nat) : Nat :=
  if x % 2 ^ 8 < 2 ^ 7 then x % 2 ^ 8 else x % 2 ^ 8 + (M64 - 2 ^ 8)

/-- Value of a u64 read as a signed i64 (Rust: x as i64). -/
def toI64 (x : Nat) : Int :=
  if x % M64 < 2 ^ 63 then (x % M64 : Int) else (x % M64 : Int) - (M64 : Int)

/-- Value of the low 32 bits read as a signed i32 (Rust: x as i32). -/
def toI32 (x : Nat) : Int :=
  if x % M32 < 2 ^ 31 then (x % M32 : Int) else (x % M32 : Int) - (M32 : Int)

/-- Truncate a signed integer back to a u64 bit pattern. -/
def ofInt64 (i : Int) : Nat := (i % (M64 : Int)).toNat

/-- Truncate a signed integer to a u32 bit pattern. -/
def ofInt32 (i : Int) : Nat := (i % (M32 : Int)).toNat

/-- Physical memory: a byte at every physical address. -/
def Mem : Type := Nat → Nat

/-- Read one byte (values are normalised below 256 on read). -/
def readByte (m : Mem) (a : Nat) : Nat := m a % 256

/-- Little-endian read of n bytes starting at address a. -/
def readBytes (m : Mem) (a : Nat) : Nat → Nat
  | 0 => 0
  | n + 1 => readByte m a + 256 * readBytes m (a + 1) n

/-- Little-endian write of the n low-order bytes of v at address a. -/
def writeBytes (m : Mem) (a v : Nat) : Nat → Mem
  | 0 => m
  | n + 1 =>
    writeBytes (fun x => if x = a then v % 256 else m x) (a + 1) (v / 256) n

/-- Read a u64 from physical memory, as crate emu read_memory for u64. -/
def readMem64 (m : Mem) (a : Nat) : Nat := readBytes m a 8

/-- Read a u16 from physical memory. -/
def readMem16 (m : Mem) (a : Nat) : Nat := readBytes m a 2

/-- One entry of the direct-mapped L0 translation cache.
The tag field stores (page number shifted left by one) with the lowest
bit recording non-writability; the paddr field stores vaddr XOR paddr. -/
structure CacheLine where
  tag : Nat
  paddr : Nat
  deriving Repr, DecidableEq

/-- Per-hart CPU state, from struct Context in src/emu/interp.rs.
The SharedContext fields sip and new_interrupts are inlined as plain
values: atomicity concerns are outside this per-hart functional model.
The cur_block pointer is omitted because it is only consulted by the
assembly trampoline, never by the functions modelled here. -/
structure Context where
  registers : Fin 32 → Nat
  pc : Nat
  instret : Nat
  new_interrupts : Nat
  sip : Nat
  scause : Nat
  stval : Nat
  fp_registers : Fin 32 → Nat
  fcsr : Nat
  lr_addr : Nat
  lr_value : Nat
  sstatus : Nat
  sie : Nat
  stvec : Nat
  sscratch : Nat
  sepc : Nat
  satp : Nat
  timecmp : Nat
  prv : Nat
  hartid : Nat
  minstret : Nat
  line : Fin 1024 → CacheLine
  i_line : Fin 1024 → CacheLine

/-- Context.clear_local_cache: set every D-side tag to i64::MAX. -/
def clearLocalCache (ctx : Context) : Context :=
  { ctx with line := fun i => { ctx.line i with tag := 2 ^ 63 - 1 } }

/-- Context.clear_local_icache: set every I-side tag to i64::MAX. -/
def clearLocalIcache (ctx : Context) : Context :=
  { ctx with i_line := fun i => { ctx.i_line i with tag := 2 ^ 63 - 1 } }

/-- Context.test_and_set_fs: trap 2 when SSTATUS.FS is Off, otherwise
force FS to Dirty. -/
def testAndSetFs (ctx : Context) : Context × Bool :=
  if ctx.sstatus &&& 0x6000 = 0 then
    ({ ctx with scause := 2, stval := 0 }, false)
  else
    ({ ctx with sstatus := ctx.sstatus ||| 0x6000 }, true)

/-- Context.interrupt_pending. -/
def interruptPending (ctx : Context) : Nat :=
  if ctx.sstatus &&& 0x2 ≠ 0 then ctx.sip &&& ctx.sie else 0

/-- The fn translate SV39 page walk.  The source loop is straight-line
code (every path breaks), so it is unrolled here.  Address and shift
computations that can wrap in u64 are reduced modulo 2 ^ 64. -/
def translate (m : Mem) (ctx : Context) (addr : Nat) (write : Bool) :
    Except Nat Nat :=
  let faultType : Nat := if write then 15 else 13
  if ctx.satp >>> 60 = 0 then
    .ok addr
  else
    let ppn := ctx.satp &&& (2 ^ 44 - 1)
    let pte := readMem64 m ((ppn * 4096 + ((addr >>> 30) &&& 511) * 8) % M64)
    if pte &&& 1 = 0 then .error faultType else
    let step1 : Except Nat (Nat × Nat) :=
      let ppn := pte >>> 10
      if pte &&& 0xf ≠ 1 then
        .ok (pte, ((ppn <<< 12) % M64) ||| (addr &&& (2 ^ 30 - 1)))
      else
        let pte := readMem64 m ((ppn * 4096 + ((addr >>> 21) &&& 511) * 8) % M64)
        if pte &&& 1 = 0 then .error faultType else
        let ppn := pte >>> 10
        if pte &&& 0xf ≠ 1 then
          .ok (pte, ((ppn <<< 12) % M64) ||| (addr &&& (2 ^ 21 - 1)))
        else
          let pte := readMem64 m ((ppn * 4096 + ((addr >>> 12) &&& 511) * 8) % M64)
          if pte &&& 1 = 0 then .error faultType else
          let ppn := pte >>> 10
          .ok (pte, ((ppn <<< 12) % M64) ||| (addr &&& 4095))
    match step1 with
    | .error e => .error e
    | .ok (pte, ret) =>
      if pte &&& 0x40 = 0 || (write && (pte &&& 0x4 = 0 || pte &&& 0x80 = 0)) then
        .error faultType
      else
        .ok ret

/-- CACHE_LINE_LOG2_SIZE. -/
def cacheLineLog2Size : Nat := 12

/-- Cache slot for an address: low 10 bits of the page number
(idx & 1023 in the source, written as a remainder here). -/
def lineIdx (idx : Nat) : Fin 1024 := ⟨idx % 1024, Nat.mod_lt _ (by decide)⟩

/-- fn translate_cache_miss: slow path of a data access.  On success the
D-cache line is refilled; a read refill sets the non-writable bit, a
write refill leaves the line writable and additionally evicts the page
from the I-side L0 line.  The removal of invalidated blocks from the
global DBT block map (the icache() BTreeMap) is global state modelled
separately with the Heap; it does not touch the Context and no claim
relates it to this function, so it is not threaded through here. -/
def translateCacheMiss (m : Mem) (ctx : Context) (addr : Nat)
    (write : Bool) : Context × Option Nat :=
  let idx := addr >>> cacheLineLog2Size
  match translate m ctx addr write with
  | .error trapCause => ({ ctx with scause := trapCause, stval := addr }, none)
  | .ok out =>
    let newLine : CacheLine := { tag := idx <<< 1, paddr := out ^^^ addr }
    if write then
      let ctx := { ctx with line := Function.update ctx.line (lineIdx idx) newLine }
      let ctx :=
        if (ctx.i_line (lineIdx idx)).tag = idx then
          let cleared : CacheLine := { ctx.i_line (lineIdx idx) with tag := 2 ^ 63 - 1 }
          { ctx with i_line := Function.update ctx.i_line (lineIdx idx) cleared }
        else ctx
      (ctx, some out)
    else
      let readLine : CacheLine := { newLine with tag := newLine.tag ||| 1 }
      let ctx := { ctx with line := Function.update ctx.line (lineIdx idx) readLine }
      (ctx, some out)

/-- fn read_vaddr: D-cache read hit test (tag >> 1 == idx) with slow
path on miss; returns the physical address to read from. -/
def readVaddrP (m : Mem) (ctx : Context) (addr : Nat) : Context × Option Nat :=
  let ctx := { ctx with minstret := ctx.minstret + 1 }
  let idx := addr >>> cacheLineLog2Size
  let l := ctx.line (lineIdx idx)
  if l.tag >>> 1 ≠ idx then
    translateCacheMiss m ctx addr false
  else
    (ctx, some (l.paddr ^^^ addr))

/-- fn ptr_vaddr_x: D-cache write hit test (tag == idx << 1) with slow
path on miss; returns the physical address to write to. -/
def ptrVaddrX (m : Mem) (ctx : Context) (addr : Nat) : Context × Option Nat :=
  let ctx := { ctx with minstret := ctx.minstret + 1 }
  let idx := addr >>> cacheLineLog2Size
  let l := ctx.line (lineIdx idx)
  if l.tag ≠ idx <<< 1 then
    translateCacheMiss m ctx addr true
  else
    (ctx, some (l.paddr ^^^ addr))

/-- SharedContext.assert: OR the mask into sip; if at least one bit was
newly set, raise the wake flag. -/
def sharedAssert (ctx : Context) (mask : Nat) : Context :=
  let prev := ctx.sip
  let ctx := { ctx with sip := ctx.sip ||| mask }
  if prev &&& mask ≠ mask then { ctx with new_interrupts := ctx.new_interrupts ||| 1 }
  else ctx

/-- SharedContext.deassert: AND sip with the complement of the mask. -/
def sharedDeassert (ctx : Context) (mask : Nat) : Context :=
  { ctx with sip := ctx.sip &&& unot mask }

/-- SharedContext.alert: raise the wake flag without touching sip. -/
def sharedAlert (ctx : Context) : Context :=
  { ctx with new_interrupts := ctx.new_interrupts ||| 1 }

/-- The CSR numbers dispatched by read_csr and write_csr.  The catch-all
constructor stands for every other CSR, which both functions reject with
an illegal-instruction trap. -/
inductive Csr where
  | fflags | frm | fcsr | time | instret
  | sstatus | sie | stvec | scounteren | sscratch | sepc | scause | stval
  | sip | satp | other
  deriving Repr, DecidableEq

/-- Modelled from the spec: Csr::min_prv_level of the external riscv
crate (not under src/).  The CSR address space is partitioned by
privilege: the floating-point CSRs and the user counters are accessible
from privilege 0, the supervisor CSRs require privilege 1. -/
def minPrvLevel : Csr → Nat
  | .fflags | .frm | .fcsr | .time | .instret => 0
  | _ => 1

/-- Modelled from the spec: Csr::readonly of the external riscv crate.
The user counters (CSR numbers 0xC00-0xC1F) are read-only by encoding;
every CSR written by write_csr below is read-write. -/
def csrReadonly : Csr → Bool
  | .time | .instret => true
  | _ => false

/-- fn read_csr.  The cycle argument supplies the event-loop virtual
cycle consumed by the time CSR; the divisor 100 is the non-fast build
of the source (cfg feature fast off). -/
def readCsr (cycle : Nat) (ctx : Context) (csr : Csr) : Context × Option Nat :=
  if ctx.prv < minPrvLevel csr then
    ({ ctx with scause := 2, stval := 0 }, none)
  else
    match csr with
    | .fflags =>
      match testAndSetFs ctx with
      | (ctx, false) => (ctx, none)
      | (ctx, true) => (ctx, some (ctx.fcsr &&& 0b11111))
    | .frm =>
      match testAndSetFs ctx with
      | (ctx, false) => (ctx, none)
      | (ctx, true) => (ctx, some ((ctx.fcsr >>> 5) &&& 0b111))
    | .fcsr =>
      match testAndSetFs ctx with
      | (ctx, false) => (ctx, none)
      | (ctx, true) => (ctx, some ctx.fcsr)
    | .time => (ctx, some (cycle / 100))
    | .instret => (ctx, some ((ctx.instret + (M64 - 1)) % M64))
    | .sstatus =>
      let value := ctx.sstatus
      let value := if value &&& 0x6000 = 0x6000 then value ||| 0x8000000000000000 else value
      (ctx, some (value ||| 0x200000000))
    | .sie => (ctx, some ctx.sie)
    | .stvec => (ctx, some ctx.stvec)
    | .scounteren => (ctx, some 0)
    | .sscratch => (ctx, some ctx.sscratch)
    | .sepc => (ctx, some ctx.sepc)
    | .scause => (ctx, some ctx.scause)
    | .stval => (ctx, some ctx.stval)
    | .sip => (ctx, some ctx.sip)
    | .satp => (ctx, some ctx.satp)
    | .other => ({ ctx with scause := 2, stval := 0 }, none)

/-- fn write_csr. -/
def writeCsr (ctx : Context) (csr : Csr) (value : Nat) : Context × Bool :=
  if csrReadonly csr || ctx.prv < minPrvLevel csr then
    ({ ctx with scause := 2, stval := 0 }, false)
  else
    match csr with
    | .fflags =>
      match testAndSetFs ctx with
      | (ctx, false) => (ctx, false)
      | (ctx, true) => ({ ctx with fcsr := (ctx.fcsr &&& unot 0b11111) ||| (value &&& 0b11111) }, true)
    | .frm =>
      match testAndSetFs ctx with
      | (ctx, false) => (ctx, false)
      | (ctx, true) => ({ ctx with fcsr := (ctx.fcsr &&& unot (0b111 <<< 5)) ||| ((value &&& 0b111) <<< 5) }, true)
    | .fcsr =>
      match testAndSetFs ctx with
      | (ctx, false) => (ctx, false)
      | (ctx, true) => ({ ctx with fcsr := value &&& 0xff }, true)
    | .instret => ({ ctx with instret := value }, true)
    | .sstatus =>
      let ctx := { ctx with sstatus := value &&& 0xC6122 }
      let ctx := if interruptPending ctx ≠ 0 then sharedAlert ctx else ctx
      (ctx, true)
    | .sie =>
      let ctx := { ctx with sie := value }
      let ctx := if interruptPending ctx ≠ 0 then sharedAlert ctx else ctx
      (ctx, true)
    | .stvec =>
      (if value &&& 2 = 0 then { ctx with stvec := value } else ctx, true)
    | .scounteren => (ctx, true)
    | .sscratch => ({ ctx with sscratch := value }, true)
    | .sepc => ({ ctx with sepc := value &&& unot 1 }, true)
    | .scause => ({ ctx with scause := value }, true)
    | .stval => ({ ctx with stval := value }, true)
    | .sip =>
      (if value &&& 0x2 ≠ 0 then sharedAssert ctx 2 else sharedDeassert ctx 2, true)
    | .satp =>
      let ctx :=
        if value >>> 60 = 0 then { ctx with satp := 0 }
        else if value >>> 60 = 8 then { ctx with satp := value }
        else ctx
      (clearLocalIcache (clearLocalCache ctx), true)
    | .time => ({ ctx with scause := 2, stval := 0 }, false)
    | .other => ({ ctx with scause := 2, stval := 0 }, false)

/-- fn trap: deliver the trap recorded in scause/stval, system-mode path
(the user-only branch dumps registers and exits the process instead; the
claims address system mode). -/
def trap (ctx : Context) : Context :=
  let ctx := { ctx with sepc := ctx.pc }
  let ctx :=
    if ctx.prv ≠ 0 then { ctx with sstatus := ctx.sstatus ||| 0x100 }
    else clearLocalIcache (clearLocalCache { ctx with sstatus := ctx.sstatus &&& unot 0x100 })
  let ctx :=
    if ctx.sstatus &&& 0x2 ≠ 0 then { ctx with sstatus := ctx.sstatus ||| 0x20 }
    else { ctx with sstatus := ctx.sstatus &&& unot 0x20 }
  let ctx := { ctx with sstatus := ctx.sstatus &&& unot 0x2 }
  { ctx with prv := 1, pc := ctx.stvec }

/-- The expression 63 - leading_zeros of a nonzero u64, that is the
index of its highest set bit, equals the base-2 logarithm. -/
def highestBit (x : Nat) : Nat := Nat.log2 x

/-- fn check_interrupt: swap the wake flag to zero, raise the timer bit
when due, and deliver the highest-priority enabled pending interrupt. -/
def checkInterrupt (cycle : Nat) (ctx : Context) : Context :=
  let ctx := { ctx with new_interrupts := 0 }
  let ctx := if cycle ≥ ctx.timecmp then { ctx with sip := ctx.sip ||| 32 } else ctx
  let interruptMask := interruptPending ctx
  if interruptMask = 0 then ctx
  else
    let pending := highestBit interruptMask
    trap { ctx with scause := (1 <<< 63) ||| pending, stval := 0 }

/-- HEAP_SIZE: the 128 MiB code-cache arena. -/
def HEAP_SIZE : Nat := 1024 * 1024 * 128

/-- The code-cache arena cursor: Heap(base pointer, allocation offset). -/
structure Heap where
  base : Nat
  cursor : Nat
  deriving Repr, DecidableEq

/-- Heap::alloc_size, together with the icache() block map it clears on
rollover.  The map from physical pc_start to block metadata is carried
as an association list.  Returns the new heap state, the new map and the
allocated host address. -/
def allocSize (h : Heap) (blockMap : List (Nat × Nat)) (size : Nat) :
    Heap × List (Nat × Nat) × Nat :=
  let (cursor1, rollover) :=
    if h.cursor ≤ HEAP_SIZE / 2 ∧ h.cursor + size > HEAP_SIZE / 2 then
      (h.cursor, true)
    else if h.cursor + size > HEAP_SIZE then
      (0, true)
    else
      (h.cursor, false)
  let blockMap := if rollover then [] else blockMap
  let ret := cursor1 + h.base
  ({ h with cursor := cursor1 + size }, blockMap, ret)

/-! Helper lemmas for 64-bit mask reasoning. -/

theorem M64_eq_pow : M64 = 2 ^ 64 := by norm_num [M64]

theorem unot_testBit (x : Nat) {i : Nat} (h : i < 64) :
    (unot x).testBit i = ! x.testBit i := by
  have hu : (M64 - 1 : Nat) = 2 ^ 64 - 1 := by norm_num [M64]
  unfold unot
  rw [hu, Nat.testBit_xor, Nat.testBit_two_pow_sub_one]
  simp [h]

theorem testBit_and_unot (s m : Nat) {i : Nat} (h : i < 64) :
    (s &&& unot m).testBit i = (s.testBit i && ! m.testBit i) := by
  simp [Nat.testBit_land, unot_testBit _ h]

theorem and_two_pow_ne_zero (s i : Nat) :
    (s &&& 2 ^ i ≠ 0) ↔ s.testBit i = true := by
  rw [Nat.and_two_pow]
  cases h : s.testBit i <;> simp [h, Nat.pow_eq_zero]

theorem testBit_lit2 (i : Nat) : Nat.testBit 2 i = decide (1 = i) := by
  rw [show (2 : Nat) = 2 ^ 1 by norm_num, Nat.testBit_two_pow]

theorem testBit_lit32 (i : Nat) : Nat.testBit 32 i = decide (5 = i) := by
  rw [show (32 : Nat) = 2 ^ 5 by norm_num, Nat.testBit_two_pow]

theorem testBit_lit256 (i : Nat) : Nat.testBit 256 i = decide (8 = i) := by
  rw [show (256 : Nat) = 2 ^ 8 by norm_num, Nat.testBit_two_pow]

theorem testBit_lit_uxl (i : Nat) : Nat.testBit 0x200000000 i = decide (33 = i) := by
  rw [show (0x200000000 : Nat) = 2 ^ 33 by norm_num, Nat.testBit_two_pow]

theorem testBit_lit_sd (i : Nat) : Nat.testBit 0x8000000000000000 i = decide (63 = i) := by
  rw [show (0x8000000000000000 : Nat) = 2 ^ 63 by norm_num, Nat.testBit_two_pow]

theorem testBit_lit6000 (i : Nat) :
    Nat.testBit 0x6000 i = (decide (13 = i) || decide (14 = i)) := by
  rw [show (0x6000 : Nat) = 2 ^ 13 ||| 2 ^ 14 by decide, Nat.testBit_lor,
    Nat.testBit_two_pow, Nat.testBit_two_pow]

theorem and_6000_eq (s : Nat) :
    (s &&& 0x6000 = 0x6000) ↔ (s.testBit 13 = true ∧ s.testBit 14 = true) := by
  constructor
  · intro h
    have h13 := congrArg (fun x => Nat.testBit x 13) h
    have h14 := congrArg (fun x => Nat.testBit x 14) h
    simp only [Nat.testBit_land, testBit_lit6000] at h13 h14
    simp at h13 h14
    exact ⟨h13, h14⟩
  · rintro ⟨h13, h14⟩
    apply Nat.eq_of_testBit_eq
    intro i
    rw [Nat.testBit_land, testBit_lit6000]
    by_cases h13' : i = 13
    · subst h13'; simp [h13]
    · by_cases h14' : i = 14
      · subst h14'; simp [h14]
      · simp [Ne.symm h13', Ne.symm h14']

theorem testBit_log2_self {x : Nat} (hx : x ≠ 0) :
    x.testBit (Nat.log2 x) = true := by
  have h1 : 2 ^ Nat.log2 x ≤ x := Nat.log2_self_le hx
  have h2 : x < 2 ^ (Nat.log2 x + 1) := Nat.lt_log2_self
  rw [Nat.testBit_to_div_mod]
  have hdiv : x / 2 ^ Nat.log2 x = 1 := by
    apply Nat.div_eq_of_lt_le (by simpa using h1)
    simpa [Nat.pow_succ, Nat.mul_comm] using h2
  simp [hdiv]

theorem le_log2_of_testBit {x j : Nat} (h : x.testBit j = true) :
    j ≤ Nat.log2 x := by
  by_contra hlt
  push_neg at hlt
  have h2 : x < 2 ^ j :=
    lt_of_lt_of_le Nat.lt_log2_self (Nat.pow_le_pow_right (by norm_num) hlt)
  rw [Nat.testBit_lt_two_pow h2] at h
  exact Bool.false_ne_true h

/-! Facts about trap used when reasoning about interrupt delivery. -/

theorem trap_scause (ctx : Context) : (trap ctx).scause = ctx.scause := by
  simp only [trap, clearLocalCache, clearLocalIcache]
  all_goals first
  | rfl
  | (split <;> first | rfl | (split <;> rfl))

theorem trap_stval (ctx : Context) : (trap ctx).stval = ctx.stval := by
  simp only [trap, clearLocalCache, clearLocalIcache]
  all_goals first
  | rfl
  | (split <;> first | rfl | (split <;> rfl))

theorem trap_sepc (ctx : Context) : (trap ctx).sepc = ctx.pc := by
  simp only [trap, clearLocalCache, clearLocalIcache]
  all_goals first
  | rfl
  | (split <;> first | rfl | (split <;> rfl))

theorem trap_prv (ctx : Context) : (trap ctx).prv = 1 := by
  simp only [trap, clearLocalCache, clearLocalIcache]
  all_goals first
  | rfl
  | (split <;> first | rfl | (split <;> rfl))

theorem trap_pc (ctx : Context) : (trap ctx).pc = ctx.stvec := by
  simp only [trap, clearLocalCache, clearLocalIcache]
  all_goals first
  | rfl
  | (split <;> first | rfl | (split <;> rfl))

theorem trap_sip (ctx : Context) : (trap ctx).sip = ctx.sip := by
  simp only [trap, clearLocalCache, clearLocalIcache]
  all_goals first
  | rfl
  | (split <;> first | rfl | (split <;> rfl))

theorem trap_new_interrupts (ctx : Context) :
    (trap ctx).new_interrupts = ctx.new_interrupts := by
  simp only [trap, clearLocalCache, clearLocalIcache]
  all_goals first
  | rfl
  | (split <;> first | rfl | (split <;> rfl))

theorem trap_sie (ctx : Context) : (trap ctx).sie = ctx.sie := by
  simp only [trap, clearLocalCache, clearLocalIcache]
  all_goals first
  | rfl
  | (split <;> first | rfl | (split <;> rfl))

theorem trap_stvec (ctx : Context) : (trap ctx).stvec = ctx.stvec := by
  simp only [trap, clearLocalCache, clearLocalIcache]
  all_goals first
  | rfl
  | (split <;> first | rfl | (split <;> rfl))

theorem trap_timecmp (ctx : Context) : (trap ctx).timecmp = ctx.timecmp := by
  simp only [trap, clearLocalCache, clearLocalIcache]
  all_goals first
  | rfl
  | (split <;> first | rfl | (split <;> rfl))

/-! Concrete states used by witnesses and counterexamples. -/

/-- An empty cache line. -/
def emptyLine : CacheLine := ⟨2 ^ 63 - 1, 0⟩

/-- All-zero physical memory. -/
def mem0 : Mem := fun _ => 0

/-- A freshly reset hart in supervisor mode with empty caches and no
paging. -/
def ctx0 : Context where
  registers := fun _ => 0
  pc := 0
  instret := 0
  new_interrupts := 0
  sip := 0
  scause := 0
  stval := 0
  fp_registers := fun _ => 0
  fcsr := 0
  lr_addr := 0
  lr_value := 0
  sstatus := 0
  sie := 0
  stvec := 0
  sscratch := 0
  sepc := 0
  satp := 0
  timecmp := 0
  prv := 1
  hartid := 0
  minstret := 0
  line := fun _ => emptyLine
  i_line := fun _ => emptyLine

theorem and2_ne (s : Nat) : (s &&& 2 ≠ 0) ↔ s.testBit 1 = true := by
  rw [show (2 : Nat) = 2 ^ 1 by norm_num]
  exact and_two_pow_ne_zero s 1

/-- The sstatus value produced by trap delivery, with the intermediate
lets of fn trap written out. -/
theorem trap_sstatus_eq (ctx : Context) :
    (trap ctx).sstatus =
      (if (if ctx.prv ≠ 0 then ctx.sstatus ||| 0x100 else ctx.sstatus &&& unot 0x100) &&& 0x2 ≠ 0
       then (if ctx.prv ≠ 0 then ctx.sstatus ||| 0x100 else ctx.sstatus &&& unot 0x100) ||| 0x20
       else (if ctx.prv ≠ 0 then ctx.sstatus ||| 0x100 else ctx.sstatus &&& unot 0x100) &&& unot 0x20)
      &&& unot 0x2 := by
  simp only [trap, clearLocalCache, clearLocalIcache]
  split <;> (dsimp only; split <;> rfl)

/-- Trap delivery from user mode leaves both L0 caches empty. -/
theorem trap_cleared_of_user (ctx : Context) (h : ctx.prv = 0) (i : Fin 1024) :
    ((trap ctx).line i).tag = 2 ^ 63 - 1 ∧
      ((trap ctx).i_line i).tag = 2 ^ 63 - 1 := by
  constructor <;>
    (simp only [trap, clearLocalCache, clearLocalIcache, h]
     try dsimp only
     try norm_num
     first | rfl | (split <;> rfl))

/-- C3: for a trap delivered in system mode, sepc receives the pc,
SPP records the interrupted privilege, SPIE receives the old SIE, SIE is
cleared, the hart enters S-mode at stvec, and a trap from U-mode leaves
every entry of both L0 caches with the empty tag. -/
theorem c3_trap_delivery (ctx : Context) (hprv : ctx.prv = 0 ∨ ctx.prv = 1) :
    (trap ctx).sepc = ctx.pc ∧
    ((trap ctx).sstatus.testBit 8 = true ↔ ctx.prv = 1) ∧
    (trap ctx).sstatus.testBit 5 = ctx.sstatus.testBit 1 ∧
    (trap ctx).sstatus.testBit 1 = false ∧
    (trap ctx).prv = 1 ∧
    (trap ctx).pc = ctx.stvec ∧
    (ctx.prv = 0 →
      ∀ i, ((trap ctx).line i).tag = 2 ^ 63 - 1 ∧
        ((trap ctx).i_line i).tag = 2 ^ 63 - 1) := by
  refine ⟨trap_sepc ctx, ?_, ?_, ?_, trap_prv ctx, trap_pc ctx,
    fun h i => trap_cleared_of_user ctx h i⟩ <;>
  · have hs := trap_sstatus_eq ctx
    rcases hprv with h0 | h1
    · have hb : (if ctx.prv ≠ 0 then ctx.sstatus ||| 0x100 else ctx.sstatus &&& unot 0x100)
          = ctx.sstatus &&& unot 0x100 := by
        rw [if_neg]; simp [h0]
      rw [hb] at hs
      have hcond : ((ctx.sstatus &&& unot 0x100) &&& 0x2 ≠ 0) ↔
          ctx.sstatus.testBit 1 = true := by
        rw [and2_ne, testBit_and_unot ctx.sstatus 0x100 (by norm_num), testBit_lit256]
        simp
      by_cases hsie : ctx.sstatus.testBit 1 = true
      · rw [if_pos (hcond.mpr hsie)] at hs
        simp [hs, h0, hsie, testBit_and_unot, unot_testBit, Nat.testBit_lor,
          testBit_lit2, testBit_lit32, testBit_lit256]
      · rw [if_neg (fun hc => hsie (hcond.mp hc))] at hs
        simp [hs, h0, hsie, testBit_and_unot, unot_testBit, Nat.testBit_lor,
          testBit_lit2, testBit_lit32, testBit_lit256]
    · have hb : (if ctx.prv ≠ 0 then ctx.sstatus ||| 0x100 else ctx.sstatus &&& unot 0x100)
          = ctx.sstatus ||| 0x100 := by
        rw [if_pos]; simp [h1]
      rw [hb] at hs
      have hcond : ((ctx.sstatus ||| 0x100) &&& 0x2 ≠ 0) ↔
          ctx.sstatus.testBit 1 = true := by
        rw [and2_ne, Nat.testBit_lor, testBit_lit256]
        simp
      by_cases hsie : ctx.sstatus.testBit 1 = true
      · rw [if_pos (hcond.mpr hsie)] at hs
        simp [hs, h1, hsie, testBit_and_unot, unot_testBit, Nat.testBit_lor,
          testBit_lit2, testBit_lit32, testBit_lit256]
      · rw [if_neg (fun hc => hsie (hcond.mp hc))] at hs
        simp [hs, h1, hsie, testBit_and_unot, unot_testBit, Nat.testBit_lor,
          testBit_lit2, testBit_lit32, testBit_lit256]

/-- C3 witness: instantiation at a concrete supervisor-mode context. -/
theorem c3_witness :
    (trap ctx0).sepc = ctx0.pc ∧ (trap ctx0).prv = 1 := by
  have h := c3_trap_delivery ctx0 (Or.inr rfl)
  exact ⟨h.1, h.2.2.2.2.1⟩

/-- C1 counterexample: with identity translation the read refill of page
1 leaves tag (1 <<< 1) ||| 1 = 3, not pn <<< 1 = 2 as the claim states:
the read refill sets the non-writable bit. -/
theorem c1_cex :
    translate mem0 ctx0 4096 false = .ok 4096 ∧
    (ctx0.line (lineIdx (4096 >>> 12))).tag >>> 1 ≠ 4096 >>> 12 ∧
    ((translateCacheMiss mem0 ctx0 4096 false).1.line (lineIdx (4096 >>> 12))).tag
      ≠ (4096 >>> 12) <<< 1 := by
  refine ⟨rfl, by decide, by decide⟩

/-- C1 amended: a D-cache read miss whose walk succeeds with physical
address phys refills the selected line with tag (pn <<< 1) ||| 1, the
non-writable bit set, and paddr = phys XOR addr. -/
theorem c1_read_refill (m : Mem) (ctx : Context) (addr phys : Nat)
    (hmiss : (ctx.line (lineIdx (addr >>> 12))).tag >>> 1 ≠ addr >>> 12)
    (htr : translate m ctx addr false = .ok phys) :
    ∃ c, translateCacheMiss m ctx addr false = (c, some phys) ∧
      c.line (lineIdx (addr >>> 12)) =
        ⟨((addr >>> 12) <<< 1) ||| 1, phys ^^^ addr⟩ := by
  unfold translateCacheMiss
  rw [htr]
  refine ⟨_, rfl, ?_⟩
  simp [cacheLineLog2Size]

/-- C1 witness for the amended statement. -/
theorem c1_read_refill_inst :
    ∃ c, translateCacheMiss mem0 ctx0 4096 false = (c, some 4096) ∧
      c.line (lineIdx (4096 >>> 12)) =
        ⟨((4096 >>> 12) <<< 1) ||| 1, 4096 ^^^ 4096⟩ :=
  c1_read_refill mem0 ctx0 4096 4096 (by decide) rfl

/-- C2 counterexample: in supervisor mode with stored sstatus = 0 the
privilege check passes, yet reading sstatus yields 0x200000000, whose FS
field (bits 13-14) is 0, not Dirty. -/
theorem c2_cex :
    minPrvLevel Csr.sstatus ≤ ctx0.prv ∧
    (readCsr 0 ctx0 Csr.sstatus).2 = some 0x200000000 ∧
    ((0x200000000 : Nat) >>> 13) &&& 3 ≠ 3 := by
  refine ⟨by decide, rfl, by decide⟩

/-- C2 amended: reading sstatus presents the stored FS field unchanged,
forces the UXL bit 33, keeps bit 32, and sets the SD summary bit exactly
when the stored FS field already reads Dirty. -/
theorem c2_sstatus_read (cycle : Nat) (ctx : Context)
    (hprv : minPrvLevel Csr.sstatus ≤ ctx.prv) :
    ∃ v, (readCsr cycle ctx Csr.sstatus).2 = some v ∧
      v.testBit 13 = ctx.sstatus.testBit 13 ∧
      v.testBit 14 = ctx.sstatus.testBit 14 ∧
      v.testBit 32 = ctx.sstatus.testBit 32 ∧
      v.testBit 33 = true ∧
      v.testBit 63 = (ctx.sstatus.testBit 63 ||
        (ctx.sstatus.testBit 13 && ctx.sstatus.testBit 14)) := by
  have hv : (readCsr cycle ctx Csr.sstatus).2 =
      some ((if ctx.sstatus &&& 0x6000 = 0x6000
             then ctx.sstatus ||| 0x8000000000000000 else ctx.sstatus) ||| 0x200000000) := by
    simp only [readCsr]
    rw [if_neg (by omega)]
  refine ⟨_, hv, ?_, ?_, ?_, ?_, ?_⟩ <;>
    by_cases h13 : ctx.sstatus.testBit 13 = true <;>
    by_cases h14 : ctx.sstatus.testBit 14 = true <;>
    simp [and_6000_eq, h13, h14, Nat.testBit_lor, testBit_lit_uxl, testBit_lit_sd]

/-- C2 witness for the amended statement. -/
theorem c2_sstatus_read_inst :
    ∃ v, (readCsr 0 ctx0 Csr.sstatus).2 = some v ∧
      v.testBit 13 = ctx0.sstatus.testBit 13 ∧
      v.testBit 14 = ctx0.sstatus.testBit 14 ∧
      v.testBit 32 = ctx0.sstatus.testBit 32 ∧
      v.testBit 33 = true ∧
      v.testBit 63 = (ctx0.sstatus.testBit 63 ||
        (ctx0.sstatus.testBit 13 && ctx0.sstatus.testBit 14)) :=
  c2_sstatus_read 0 ctx0 (by decide)

/-- C6: check_interrupt clears the wake flag, raises the timer bit when
the cycle has reached timecmp, and delivers a trap with cause
(1 <<< 63) ||| b for the highest pending enabled bit b exactly when the
enabled pending set is nonempty; otherwise the CSRs, the pc and the
privilege are untouched. -/
theorem c6_check_interrupt (cycle : Nat) (ctx : Context) :
    (checkInterrupt cycle ctx).new_interrupts = 0 ∧
    (checkInterrupt cycle ctx).sip =
      (if cycle ≥ ctx.timecmp then ctx.sip ||| 32 else ctx.sip) ∧
    ((if ctx.sstatus &&& 0x2 ≠ 0
      then (if cycle ≥ ctx.timecmp then ctx.sip ||| 32 else ctx.sip) &&& ctx.sie
      else 0) = 0 →
      (checkInterrupt cycle ctx).scause = ctx.scause ∧
      (checkInterrupt cycle ctx).stval = ctx.stval ∧
      (checkInterrupt cycle ctx).sepc = ctx.sepc ∧
      (checkInterrupt cycle ctx).sstatus = ctx.sstatus ∧
      (checkInterrupt cycle ctx).sie = ctx.sie ∧
      (checkInterrupt cycle ctx).stvec = ctx.stvec ∧
      (checkInterrupt cycle ctx).satp = ctx.satp ∧
      (checkInterrupt cycle ctx).pc = ctx.pc ∧
      (checkInterrupt cycle ctx).prv = ctx.prv) ∧
    ((if ctx.sstatus &&& 0x2 ≠ 0
      then (if cycle ≥ ctx.timecmp then ctx.sip ||| 32 else ctx.sip) &&& ctx.sie
      else 0) ≠ 0 →
      ∃ b, (checkInterrupt cycle ctx).scause = (1 <<< 63) ||| b ∧
        ((if ctx.sstatus &&& 0x2 ≠ 0
          then (if cycle ≥ ctx.timecmp then ctx.sip ||| 32 else ctx.sip) &&& ctx.sie
          else 0)).testBit b = true ∧
        (∀ j, ((if ctx.sstatus &&& 0x2 ≠ 0
          then (if cycle ≥ ctx.timecmp then ctx.sip ||| 32 else ctx.sip) &&& ctx.sie
          else 0)).testBit j = true → j ≤ b) ∧
        (checkInterrupt cycle ctx).stval = 0 ∧
        (checkInterrupt cycle ctx).sepc = ctx.pc ∧
        (checkInterrupt cycle ctx).prv = 1 ∧
        (checkInterrupt cycle ctx).pc = ctx.stvec) := by
  simp only [checkInterrupt, interruptPending]
  by_cases ht : cycle ≥ ctx.timecmp
  · simp only [ht, if_true]
    by_cases hp : (if ctx.sstatus &&& 0x2 ≠ 0 then (ctx.sip ||| 32) &&& ctx.sie else 0) = 0
    · rw [if_pos hp]
      exact ⟨rfl, rfl, fun _ => ⟨rfl, rfl, rfl, rfl, rfl, rfl, rfl, rfl, rfl⟩,
        fun hne => absurd hp hne⟩
    · rw [if_neg hp]
      refine ⟨?_, ?_, fun h0 => absurd h0 hp, fun _ => ?_⟩
      · rw [trap_new_interrupts]
      · rw [trap_sip]
      · refine ⟨_, ?_, testBit_log2_self hp, fun j hj => le_log2_of_testBit hj,
          ?_, ?_, trap_prv _, ?_⟩
        · rw [trap_scause]; rfl
        · rw [trap_stval]
        · rw [trap_sepc]
        · rw [trap_pc]
  · simp only [ht, if_false]
    by_cases hp : (if ctx.sstatus &&& 0x2 ≠ 0 then ctx.sip &&& ctx.sie else 0) = 0
    · rw [if_pos hp]
      exact ⟨rfl, rfl, fun _ => ⟨rfl, rfl, rfl, rfl, rfl, rfl, rfl, rfl, rfl⟩,
        fun hne => absurd hp hne⟩
    · rw [if_neg hp]
      refine ⟨?_, ?_, fun h0 => absurd h0 hp, fun _ => ?_⟩
      · rw [trap_new_interrupts]
      · rw [trap_sip]
      · refine ⟨_, ?_, testBit_log2_self hp, fun j hj => le_log2_of_testBit hj,
          ?_, ?_, trap_prv _, ?_⟩
        · rw [trap_scause]; rfl
        · rw [trap_stval]
        · rw [trap_sepc]
        · rw [trap_pc]

/-- A context about to take a timer interrupt: SIE set, timer enabled. -/
def ctxC6 : Context := { ctx0 with sstatus := 2, sie := 32 }

/-- C6 witness: a due timer interrupt is delivered. -/
theorem c6_witness :
    (checkInterrupt 0 ctxC6).prv = 1 ∧ (checkInterrupt 0 ctxC6).stval = 0 ∧
      (checkInterrupt 0 ctxC6).new_interrupts = 0 := by
  obtain ⟨h1, -, -, h4⟩ := c6_check_interrupt 0 ctxC6
  obtain ⟨b, -, -, -, hstv, -, hprv, -⟩ := h4 (by decide)
  exact ⟨hprv, hstv, h1⟩

/-- C7 counterexample: allocating HEAP_SIZE bytes at cursor 1 both
crosses the midpoint from below and overflows the top; the source takes
the midpoint branch, so the cursor does not wrap to 0 before allocating
as the claim asserts for every overflow of the top. -/
theorem c7_cex :
    1 + HEAP_SIZE > HEAP_SIZE ∧
    (allocSize ⟨0, 1⟩ [] HEAP_SIZE).2.2 ≠ 0 ∧
    (allocSize ⟨0, 1⟩ [] HEAP_SIZE).1.cursor ≠ 0 + HEAP_SIZE := by
  refine ⟨by norm_num, by decide, by decide⟩

/-- C7 amended: the block map is cleared exactly when the allocation
crosses the midpoint from below or overflows the top; the cursor wraps
to 0 before allocating only when the top overflows without the midpoint
crossing; otherwise the allocation is taken at the current cursor, which
always advances by exactly the requested size from its (possibly
wrapped) value. -/
theorem c7_alloc_rollover (h : Heap) (mp : List (Nat × Nat)) (n : Nat) :
    ((allocSize h mp n).2.1 =
      if (h.cursor ≤ HEAP_SIZE / 2 ∧ h.cursor + n > HEAP_SIZE / 2) ∨ h.cursor + n > HEAP_SIZE
      then [] else mp) ∧
    ((allocSize h mp n).1.cursor =
      if ¬(h.cursor ≤ HEAP_SIZE / 2 ∧ h.cursor + n > HEAP_SIZE / 2) ∧ h.cursor + n > HEAP_SIZE
      then n else h.cursor + n) ∧
    ((allocSize h mp n).2.2 =
      if ¬(h.cursor ≤ HEAP_SIZE / 2 ∧ h.cursor + n > HEAP_SIZE / 2) ∧ h.cursor + n > HEAP_SIZE
      then h.base else h.cursor + h.base) ∧
    (allocSize h mp n).1.base = h.base := by
  by_cases h1 : h.cursor ≤ HEAP_SIZE / 2 ∧ h.cursor + n > HEAP_SIZE / 2 <;>
    by_cases h2 : h.cursor + n > HEAP_SIZE <;>
    simp [allocSize, h1, h2]

/-- Rust u64 wrapping_sub. -/
def wsub (a b : Nat) : Nat := (a + (M64 - b % M64)) % M64

/-- Arithmetic right shift of a signed value: floor division by a power
of two, as the Rust shift on a signed integer. -/
def ashr (v : Int) (sh : Nat) : Int := Int.fdiv v (2 ^ sh)

set_option maxHeartbeats 3200000
set_option maxRecDepth 16384

/-- The decoded operations dispatched by fn step.  The variants and
their fields are exactly the arms of the exhaustive match in the source;
register numbers are Fin 32 (the source marks indices at or above 32 as
unreachable), immediates are i32 values, shift amounts and rounding
modes are small non-negative numbers. -/
inductive Op where
  | illegal
  | lb (rd rs1 : Fin 32) (imm : Int)
  | lh (rd rs1 : Fin 32) (imm : Int)
  | lw (rd rs1 : Fin 32) (imm : Int)
  | ld (rd rs1 : Fin 32) (imm : Int)
  | lbu (rd rs1 : Fin 32) (imm : Int)
  | lhu (rd rs1 : Fin 32) (imm : Int)
  | lwu (rd rs1 : Fin 32) (imm : Int)
  | addi (rd rs1 : Fin 32) (imm : Int)
  | slli (rd rs1 : Fin 32) (imm : Nat)
  | slti (rd rs1 : Fin 32) (imm : Int)
  | sltiu (rd rs1 : Fin 32) (imm : Int)
  | xori (rd rs1 : Fin 32) (imm : Int)
  | srli (rd rs1 : Fin 32) (imm : Nat)
  | srai (rd rs1 : Fin 32) (imm : Nat)
  | ori (rd rs1 : Fin 32) (imm : Int)
  | andi (rd rs1 : Fin 32) (imm : Int)
  | fence
  | fenceI
  | addiw (rd rs1 : Fin 32) (imm : Int)
  | slliw (rd rs1 : Fin 32) (imm : Nat)
  | srliw (rd rs1 : Fin 32) (imm : Nat)
  | sraiw (rd rs1 : Fin 32) (imm : Nat)
  | sb (rs1 rs2 : Fin 32) (imm : Int)
  | sh (rs1 rs2 : Fin 32) (imm : Int)
  | sw (rs1 rs2 : Fin 32) (imm : Int)
  | sd (rs1 rs2 : Fin 32) (imm : Int)
  | add (rd rs1 rs2 : Fin 32)
  | sub (rd rs1 rs2 : Fin 32)
  | sll (rd rs1 rs2 : Fin 32)
  | slt (rd rs1 rs2 : Fin 32)
  | sltu (rd rs1 rs2 : Fin 32)
  | xor (rd rs1 rs2 : Fin 32)
  | srl (rd rs1 rs2 : Fin 32)
  | sra (rd rs1 rs2 : Fin 32)
  | or (rd rs1 rs2 : Fin 32)
  | and (rd rs1 rs2 : Fin 32)
  | lui (rd : Fin 32) (imm : Int)
  | addw (rd rs1 rs2 : Fin 32)
  | subw (rd rs1 rs2 : Fin 32)
  | sllw (rd rs1 rs2 : Fin 32)
  | srlw (rd rs1 rs2 : Fin 32)
  | sraw (rd rs1 rs2 : Fin 32)
  | auipc (rd : Fin 32) (imm : Int)
  | beq (rs1 rs2 : Fin 32) (imm : Int)
  | bne (rs1 rs2 : Fin 32) (imm : Int)
  | blt (rs1 rs2 : Fin 32) (imm : Int)
  | bge (rs1 rs2 : Fin 32) (imm : Int)
  | bltu (rs1 rs2 : Fin 32) (imm : Int)
  | bgeu (rs1 rs2 : Fin 32) (imm : Int)
  | jalr (rd rs1 : Fin 32) (imm : Int)
  | jal (rd : Fin 32) (imm : Int)
  | ecall
  | ebreak
  | csrrw (rd rs1 : Fin 32) (csr : Csr)
  | csrrs (rd rs1 : Fin 32) (csr : Csr)
  | csrrc (rd rs1 : Fin 32) (csr : Csr)
  | csrrwi (rd : Fin 32) (imm : Nat) (csr : Csr)
  | csrrsi (rd : Fin 32) (imm : Nat) (csr : Csr)
  | csrrci (rd : Fin 32) (imm : Nat) (csr : Csr)
  | flw (frd rs1 : Fin 32) (imm : Int)
  | fsw (rs1 frs2 : Fin 32) (imm : Int)
  | faddS (frd frs1 frs2 : Fin 32) (rm : Nat)
  | fsubS (frd frs1 frs2 : Fin 32) (rm : Nat)
  | fmulS (frd frs1 frs2 : Fin 32) (rm : Nat)
  | fdivS (frd frs1 frs2 : Fin 32) (rm : Nat)
  | fsqrtS (frd frs1 : Fin 32) (rm : Nat)
  | fsgnjS (frd frs1 frs2 : Fin 32)
  | fsgnjnS (frd frs1 frs2 : Fin 32)
  | fsgnjxS (frd frs1 frs2 : Fin 32)
  | fminS (frd frs1 frs2 : Fin 32)
  | fmaxS (frd frs1 frs2 : Fin 32)
  | fcvtWS (rd frs1 : Fin 32) (rm : Nat)
  | fcvtWuS (rd frs1 : Fin 32) (rm : Nat)
  | fcvtLS (rd frs1 : Fin 32) (rm : Nat)
  | fcvtLuS (rd frs1 : Fin 32) (rm : Nat)
  | fmvXW (rd frs1 : Fin 32)
  | fclassS (rd frs1 : Fin 32)
  | feqS (rd frs1 frs2 : Fin 32)
  | fltS (rd frs1 frs2 : Fin 32)
  | fleS (rd frs1 frs2 : Fin 32)
  | fcvtSW (frd rs1 : Fin 32) (rm : Nat)
  | fcvtSWu (frd rs1 : Fin 32) (rm : Nat)
  | fcvtSL (frd rs1 : Fin 32) (rm : Nat)
  | fcvtSLu (frd rs1 : Fin 32) (rm : Nat)
  | fmvWX (frd rs1 : Fin 32)
  | fmaddS (frd frs1 frs2 frs3 : Fin 32) (rm : Nat)
  | fmsubS (frd frs1 frs2 frs3 : Fin 32) (rm : Nat)
  | fnmsubS (frd frs1 frs2 frs3 : Fin 32) (rm : Nat)
  | fnmaddS (frd frs1 frs2 frs3 : Fin 32) (rm : Nat)
  | fld (frd rs1 : Fin 32) (imm : Int)
  | fsd (rs1 frs2 : Fin 32) (imm : Int)
  | faddD (frd frs1 frs2 : Fin 32) (rm : Nat)
  | fsubD (frd frs1 frs2 : Fin 32) (rm : Nat)
  | fmulD (frd frs1 frs2 : Fin 32) (rm : Nat)
  | fdivD (frd frs1 frs2 : Fin 32) (rm : Nat)
  | fsqrtD (frd frs1 : Fin 32) (rm : Nat)
  | fsgnjD (frd frs1 frs2 : Fin 32)
  | fsgnjnD (frd frs1 frs2 : Fin 32)
  | fsgnjxD (frd frs1 frs2 : Fin 32)
  | fminD (frd frs1 frs2 : Fin 32)
  | fmaxD (frd frs1 frs2 : Fin 32)
  | fcvtSD (frd frs1 : Fin 32) (rm : Nat)
  | fcvtDS (frd frs1 : Fin 32) (rm : Nat)
  | fcvtWD (rd frs1 : Fin 32) (rm : Nat)
  | fcvtWuD (rd frs1 : Fin 32) (rm : Nat)
  | fcvtLD (rd frs1 : Fin 32) (rm : Nat)
  | fcvtLuD (rd frs1 : Fin 32) (rm : Nat)
  | fmvXD (rd frs1 : Fin 32)
  | fclassD (rd frs1 : Fin 32)
  | feqD (rd frs1 frs2 : Fin 32)
  | fltD (rd frs1 frs2 : Fin 32)
  | fleD (rd frs1 frs2 : Fin 32)
  | fcvtDW (frd rs1 : Fin 32) (rm : Nat)
  | fcvtDWu (frd rs1 : Fin 32) (rm : Nat)
  | fcvtDL (frd rs1 : Fin 32) (rm : Nat)
  | fcvtDLu (frd rs1 : Fin 32) (rm : Nat)
  | fmvDX (frd rs1 : Fin 32)
  | fmaddD (frd frs1 frs2 frs3 : Fin 32) (rm : Nat)
  | fmsubD (frd frs1 frs2 frs3 : Fin 32) (rm : Nat)
  | fnmsubD (frd frs1 frs2 frs3 : Fin 32) (rm : Nat)
  | fnmaddD (frd frs1 frs2 frs3 : Fin 32) (rm : Nat)
  | mul (rd rs1 rs2 : Fin 32)
  | mulh (rd rs1 rs2 : Fin 32)
  | mulhsu (rd rs1 rs2 : Fin 32)
  | mulhu (rd rs1 rs2 : Fin 32)
  | div (rd rs1 rs2 : Fin 32)
  | divu (rd rs1 rs2 : Fin 32)
  | rem (rd rs1 rs2 : Fin 32)
  | remu (rd rs1 rs2 : Fin 32)
  | mulw (rd rs1 rs2 : Fin 32)
  | divw (rd rs1 rs2 : Fin 32)
  | divuw (rd rs1 rs2 : Fin 32)
  | remw (rd rs1 rs2 : Fin 32)
  | remuw (rd rs1 rs2 : Fin 32)
  | lrW (rd rs1 : Fin 32)
  | lrD (rd rs1 : Fin 32)
  | scW (rd rs1 rs2 : Fin 32)
  | scD (rd rs1 rs2 : Fin 32)
  | amoswapW (rd rs1 rs2 : Fin 32)
  | amoswapD (rd rs1 rs2 : Fin 32)
  | amoaddW (rd rs1 rs2 : Fin 32)
  | amoaddD (rd rs1 rs2 : Fin 32)
  | amoandW (rd rs1 rs2 : Fin 32)
  | amoandD (rd rs1 rs2 : Fin 32)
  | amoorW (rd rs1 rs2 : Fin 32)
  | amoorD (rd rs1 rs2 : Fin 32)
  | amoxorW (rd rs1 rs2 : Fin 32)
  | amoxorD (rd rs1 rs2 : Fin 32)
  | amominW (rd rs1 rs2 : Fin 32)
  | amominD (rd rs1 rs2 : Fin 32)
  | amomaxW (rd rs1 rs2 : Fin 32)
  | amomaxD (rd rs1 rs2 : Fin 32)
  | amominuW (rd rs1 rs2 : Fin 32)
  | amominuD (rd rs1 rs2 : Fin 32)
  | amomaxuW (rd rs1 rs2 : Fin 32)
  | amomaxuD (rd rs1 rs2 : Fin 32)
  | sret
  | wfi
  | sfenceVma (rs1 rs2 : Fin 32)

/-- Interface of the external softfp crate (deliberately out of scope in
the spec): every operation is a pure function of the rounding mode and
the operand bit patterns, returning the result pattern together with the
sticky exception flags raised, which matches the clear-flag, operate,
read-flag discipline of the source for a single operation. -/
structure SoftFP where
  f32Add : Nat → Nat → Nat → Nat × Nat
  f32Sub : Nat → Nat → Nat → Nat × Nat
  f32Mul : Nat → Nat → Nat → Nat × Nat
  f32Div : Nat → Nat → Nat → Nat × Nat
  f32Sqrt : Nat → Nat → Nat × Nat
  f32SgnJ : Nat → Nat → Nat
  f32SgnJN : Nat → Nat → Nat
  f32SgnJX : Nat → Nat → Nat
  f32Min : Nat → Nat → Nat × Nat
  f32Max : Nat → Nat → Nat × Nat
  f32CvtToI32 : Nat → Nat → Nat × Nat
  f32CvtToU32 : Nat → Nat → Nat × Nat
  f32CvtToI64 : Nat → Nat → Nat × Nat
  f32CvtToU64 : Nat → Nat → Nat × Nat
  f32CvtFromI32 : Nat → Nat → Nat × Nat
  f32CvtFromU32 : Nat → Nat → Nat × Nat
  f32CvtFromI64 : Nat → Nat → Nat × Nat
  f32CvtFromU64 : Nat → Nat → Nat × Nat
  f32Classify : Nat → Nat
  f32Eq : Nat → Nat → Bool
  f32Lt : Nat → Nat → Bool × Nat
  f32Le : Nat → Nat → Bool × Nat
  f32Fma : Nat → Nat → Nat → Nat → Nat × Nat
  f32Neg : Nat → Nat
  f32CvtToF64 : Nat → Nat × Nat
  f64Add : Nat → Nat → Nat → Nat × Nat
  f64Sub : Nat → Nat → Nat → Nat × Nat
  f64Mul : Nat → Nat → Nat → Nat × Nat
  f64Div : Nat → Nat → Nat → Nat × Nat
  f64Sqrt : Nat → Nat → Nat × Nat
  f64SgnJ : Nat → Nat → Nat
  f64SgnJN : Nat → Nat → Nat
  f64SgnJX : Nat → Nat → Nat
  f64Min : Nat → Nat → Nat × Nat
  f64Max : Nat → Nat → Nat × Nat
  f64CvtToI32 : Nat → Nat → Nat × Nat
  f64CvtToU32 : Nat → Nat → Nat × Nat
  f64CvtToI64 : Nat → Nat → Nat × Nat
  f64CvtToU64 : Nat → Nat → Nat × Nat
  f64CvtFromI32 : Nat → Nat → Nat × Nat
  f64CvtFromU32 : Nat → Nat → Nat × Nat
  f64CvtFromI64 : Nat → Nat → Nat × Nat
  f64CvtFromU64 : Nat → Nat → Nat × Nat
  f64Classify : Nat → Nat
  f64Eq : Nat → Nat → Bool
  f64Lt : Nat → Nat → Bool × Nat
  f64Le : Nat → Nat → Bool × Nat
  f64Fma : Nat → Nat → Nat → Nat → Nat × Nat
  f64Neg : Nat → Nat
  f64CvtToF32 : Nat → Nat → Nat × Nat

/-- External collaborators consumed by one interpreter step: the
soft-float capability, the event-loop virtual cycle, the user-only flag,
the console input byte, and the host syscall shim of user-only mode. -/
structure Ext where
  sfp : SoftFP
  cycle : Nat
  userOnly : Bool
  getchar : Nat
  sys : Nat → Nat → Nat → Nat → Nat → Nat → Nat → Nat

/-- Outcome of fn step: normal return, guest-trap return (Err with
scause/stval recorded in the context), or no return at all (process
exit for SBI shutdown, panic for an unknown SBI number or a failing
unwrap). -/
inductive StepResult where
  | ok (ctx : Context) (m : Mem)
  | fault (ctx : Context) (m : Mem)
  | diverge

/-- The write_reg macro: a write to register index 0 is discarded. -/
def setReg (ctx : Context) (rd : Fin 32) (v : Nat) : Context :=
  if rd ≠ 0 then { ctx with registers := Function.update ctx.registers rd v }
  else ctx

/-- The write_32 macro: sign-extend a 32-bit value, discarding x0. -/
def setReg32 (ctx : Context) (rd : Fin 32) (v : Nat) : Context :=
  setReg ctx rd (sext32 v)

/-- A direct assignment ctx.registers[i] = v in the source (used only
with the literal indices 10 and 17, never 0). -/
def setRegIdx (ctx : Context) (i : Fin 32) (v : Nat) : Context :=
  { ctx with registers := Function.update ctx.registers i v }

/-- The write_fs macro: NaN-box a single-precision result. -/
def setFpS (ctx : Context) (frd : Fin 32) (v : Nat) : Context :=
  { ctx with fp_registers :=
      Function.update ctx.fp_registers frd ((v % M32) ||| 0xffffffff00000000) }

/-- The write_fd macro. -/
def setFpD (ctx : Context) (frd : Fin 32) (v : Nat) : Context :=
  { ctx with fp_registers := Function.update ctx.fp_registers frd (v % M64) }

/-- The read_fs macro: low 32 bits of the register. -/
def readFs (ctx : Context) (frs : Fin 32) : Nat := ctx.fp_registers frs % M32

/-- The read_fd macro. -/
def readFd (ctx : Context) (frs : Fin 32) : Nat := ctx.fp_registers frs

/-- The update_flags macro: OR the sticky exception flags into fcsr. -/
def accumFlags (ctx : Context) (fl : Nat) : Context :=
  { ctx with fcsr := ctx.fcsr ||| fl }

/-- Modelled from the spec: RoundingMode try_from of the external softfp
crate accepts the five RISC-V rounding mode encodings 0 through 4. -/
def validRM (rm : Nat) : Bool := rm ≤ 4

/-- The set_rm macro: check FS, resolve the dynamic rounding mode from
fcsr, and reject illegal encodings with an illegal-instruction trap. -/
def setRm (ctx : Context) (rm : Nat) : Context × Option Nat :=
  match testAndSetFs ctx with
  | (ctx, false) => (ctx, none)
  | (ctx, true) =>
    let rmEff := if rm = 0b111 then ctx.fcsr >>> 5 else rm
    if validRM rmEff then (ctx, some rmEff)
    else ({ ctx with scause := 2, stval := 0 }, none)

/-- Does the given hart index appear in an SBI hart mask. -/
def maskHasHart (mask hartid : Nat) : Bool := mask &&& (1 <<< hartid) ≠ 0

/-- fn sbi_call, restricted to its effect on the calling hart and the
return value placed in a0.  Remote harts only have bits ORed into their
shared interrupt state or their caches cleared, which lies outside this
one-hart state; the local hart participates in broadcasts through its
own mask bit, which is modelled.  Returns none when the call does not
return: SBI 8 exits the process, an unknown number panics, and the
unwraps of translate in calls 4 to 7 panic on a translation fault. -/
def sbiCall (ext : Ext) (m : Mem) (ctx : Context) (nr a0 : Nat) :
    Option (Context × Nat) :=
  match nr with
  | 0 =>
    let ctx := { ctx with timecmp := a0 * 100 }
    some (sharedDeassert ctx 32, 0)
  | 1 => some (ctx, 0)
  | 2 => some (ctx, ext.getchar)
  | 3 => some (sharedDeassert ctx 2, 0)
  | 4 =>
    match translate m ctx a0 false with
    | .error _ => none
    | .ok p =>
      let mask := readMem64 m p
      if maskHasHart mask ctx.hartid then some (sharedAssert ctx 2, 0)
      else some (ctx, 0)
  | 5 =>
    if a0 = 0 then some (clearLocalIcache ctx, 0)
    else
      match translate m ctx a0 false with
      | .error _ => none
      | .ok p =>
        let mask := readMem64 m p
        if maskHasHart mask ctx.hartid then some (clearLocalIcache ctx, 0)
        else some (ctx, 0)
  | 6 =>
    if a0 = 0 then some (clearLocalIcache (clearLocalCache ctx), 0)
    else
      match translate m ctx a0 false with
      | .error _ => none
      | .ok p =>
        let mask := readMem64 m p
        if maskHasHart mask ctx.hartid then
          some (clearLocalIcache (clearLocalCache ctx), 0)
        else some (ctx, 0)
  | 7 =>
    if a0 = 0 then some (clearLocalIcache (clearLocalCache ctx), 0)
    else
      match translate m ctx a0 false with
      | .error _ => none
      | .ok p =>
        let mask := readMem64 m p
        if maskHasHart mask ctx.hartid then
          some (clearLocalIcache (clearLocalCache ctx), 0)
        else some (ctx, 0)
  | _ => none

/-- fn step (riscv_step): execute one decoded operation.  Mirrors the
arms of the source match in order.  The pc has already been advanced
past the instruction by the dispatcher, so pc-relative operations
subtract 4 first.  Note the source checks vaddr & 3 (not & 7) for fld,
which is kept as is. -/
def step (ext : Ext) (ctx : Context) (m : Mem) (op : Op) : StepResult :=
  match op with
  | .illegal => .fault { ctx with scause := 2, stval := 0 } m
  | .lb rd rs1 imm =>
    let vaddr := wadd (ctx.registers rs1) (ofInt64 imm)
    match readVaddrP m ctx vaddr with
    | (c, none) => .fault c m
    | (c, some paddr) => .ok (setReg c rd (sext8 (readBytes m paddr 1))) m
  | .lh rd rs1 imm =>
    let vaddr := wadd (ctx.registers rs1) (ofInt64 imm)
    if vaddr &&& 1 ≠ 0 then .fault { ctx with scause := 4, stval := vaddr } m
    else
      match readVaddrP m ctx vaddr with
      | (c, none) => .fault c m
      | (c, some paddr) => .ok (setReg c rd (sext16 (readBytes m paddr 2))) m
  | .lw rd rs1 imm =>
    let vaddr := wadd (ctx.registers rs1) (ofInt64 imm)
    if vaddr &&& 3 ≠ 0 then .fault { ctx with scause := 4, stval := vaddr } m
    else
      match readVaddrP m ctx vaddr with
      | (c, none) => .fault c m
      | (c, some paddr) => .ok (setReg c rd (sext32 (readBytes m paddr 4))) m
  | .ld rd rs1 imm =>
    let vaddr := wadd (ctx.registers rs1) (ofInt64 imm)
    if vaddr &&& 7 ≠ 0 then .fault { ctx with scause := 4, stval := vaddr } m
    else
      match readVaddrP m ctx vaddr with
      | (c, none) => .fault c m
      | (c, some paddr) => .ok (setReg c rd (readBytes m paddr 8)) m
  | .lbu rd rs1 imm =>
    let vaddr := wadd (ctx.registers rs1) (ofInt64 imm)
    match readVaddrP m ctx vaddr with
    | (c, none) => .fault c m
    | (c, some paddr) => .ok (setReg c rd (readBytes m paddr 1)) m
  | .lhu rd rs1 imm =>
    let vaddr := wadd (ctx.registers rs1) (ofInt64 imm)
    if vaddr &&& 1 ≠ 0 then .fault { ctx with scause := 4, stval := vaddr } m
    else
      match readVaddrP m ctx vaddr with
      | (c, none) => .fault c m
      | (c, some paddr) => .ok (setReg c rd (readBytes m paddr 2)) m
  | .lwu rd rs1 imm =>
    let vaddr := wadd (ctx.registers rs1) (ofInt64 imm)
    if vaddr &&& 3 ≠ 0 then .fault { ctx with scause := 4, stval := vaddr } m
    else
      match readVaddrP m ctx vaddr with
      | (c, none) => .fault c m
      | (c, some paddr) => .ok (setReg c rd (readBytes m paddr 4)) m
  | .addi rd rs1 imm => .ok (setReg ctx rd (wadd (ctx.registers rs1) (ofInt64 imm))) m
  | .slli rd rs1 imm => .ok (setReg ctx rd ((ctx.registers rs1 <<< imm) % M64)) m
  | .slti rd rs1 imm =>
    .ok (setReg ctx rd (if toI64 (ctx.registers rs1) < imm then 1 else 0)) m
  | .sltiu rd rs1 imm =>
    .ok (setReg ctx rd (if ctx.registers rs1 < ofInt64 imm then 1 else 0)) m
  | .xori rd rs1 imm => .ok (setReg ctx rd (ctx.registers rs1 ^^^ ofInt64 imm)) m
  | .srli rd rs1 imm => .ok (setReg ctx rd (ctx.registers rs1 >>> imm)) m
  | .srai rd rs1 imm => .ok (setReg ctx rd (ofInt64 (ashr (toI64 (ctx.registers rs1)) imm))) m
  | .ori rd rs1 imm => .ok (setReg ctx rd (ctx.registers rs1 ||| ofInt64 imm)) m
  | .andi rd rs1 imm => .ok (setReg ctx rd (ctx.registers rs1 &&& ofInt64 imm)) m
  | .fence => .ok ctx m
  | .fenceI => .ok (clearLocalIcache ctx) m
  | .addiw rd rs1 imm =>
    .ok (setReg ctx rd (sext32 ((ctx.registers rs1 + ofInt32 imm) % M32))) m
  | .slliw rd rs1 imm =>
    .ok (setReg ctx rd (sext32 ((ctx.registers rs1 % M32 <<< imm) % M32))) m
  | .srliw rd rs1 imm =>
    .ok (setReg ctx rd (sext32 (ctx.registers rs1 % M32 >>> imm))) m
  | .sraiw rd rs1 imm =>
    .ok (setReg ctx rd (ofInt64 (ashr (toI32 (ctx.registers rs1)) imm))) m
  | .sb rs1 rs2 imm =>
    let vaddr := wadd (ctx.registers rs1) (ofInt64 imm)
    match ptrVaddrX m ctx vaddr with
    | (c, none) => .fault c m
    | (c, some paddr) => .ok c (writeBytes m paddr (c.registers rs2) 1)
  | .sh rs1 rs2 imm =>
    let vaddr := wadd (ctx.registers rs1) (ofInt64 imm)
    if vaddr &&& 1 ≠ 0 then .fault { ctx with scause := 5, stval := vaddr } m
    else
      match ptrVaddrX m ctx vaddr with
      | (c, none) => .fault c m
      | (c, some paddr) => .ok c (writeBytes m paddr (c.registers rs2) 2)
  | .sw rs1 rs2 imm =>
    let vaddr := wadd (ctx.registers rs1) (ofInt64 imm)
    if vaddr &&& 3 ≠ 0 then .fault { ctx with scause := 5, stval := vaddr } m
    else
      match ptrVaddrX m ctx vaddr with
      | (c, none) => .fault c m
      | (c, some paddr) => .ok c (writeBytes m paddr (c.registers rs2) 4)
  | .sd rs1 rs2 imm =>
    let vaddr := wadd (ctx.registers rs1) (ofInt64 imm)
    if vaddr &&& 7 ≠ 0 then .fault { ctx with scause := 5, stval := vaddr } m
    else
      match ptrVaddrX m ctx vaddr with
      | (c, none) => .fault c m
      | (c, some paddr) => .ok c (writeBytes m paddr (c.registers rs2) 8)
  | .add rd rs1 rs2 => .ok (setReg ctx rd (wadd (ctx.registers rs1) (ctx.registers rs2))) m
  | .sub rd rs1 rs2 => .ok (setReg ctx rd (wsub (ctx.registers rs1) (ctx.registers rs2))) m
  | .sll rd rs1 rs2 =>
    .ok (setReg ctx rd ((ctx.registers rs1 <<< (ctx.registers rs2 &&& 63)) % M64)) m
  | .slt rd rs1 rs2 =>
    .ok (setReg ctx rd (if toI64 (ctx.registers rs1) < toI64 (ctx.registers rs2) then 1 else 0)) m
  | .sltu rd rs1 rs2 =>
    .ok (setReg ctx rd (if ctx.registers rs1 < ctx.registers rs2 then 1 else 0)) m
  | .xor rd rs1 rs2 => .ok (setReg ctx rd (ctx.registers rs1 ^^^ ctx.registers rs2)) m
  | .srl rd rs1 rs2 =>
    .ok (setReg ctx rd (ctx.registers rs1 >>> (ctx.registers rs2 &&& 63))) m
  | .sra rd rs1 rs2 =>
    .ok (setReg ctx rd (ofInt64 (ashr (toI64 (ctx.registers rs1)) (ctx.registers rs2 &&& 63)))) m
  | .or rd rs1 rs2 => .ok (setReg ctx rd (ctx.registers rs1 ||| ctx.registers rs2)) m
  | .and rd rs1 rs2 => .ok (setReg ctx rd (ctx.registers rs1 &&& ctx.registers rs2)) m
  | .lui rd imm => .ok (setReg ctx rd (ofInt64 imm)) m
  | .addw rd rs1 rs2 =>
    .ok (setReg ctx rd (sext32 ((ctx.registers rs1 + ctx.registers rs2) % M32))) m
  | .subw rd rs1 rs2 =>
    .ok (setReg ctx rd (sext32 ((ctx.registers rs1 % M32 +
      (M32 - ctx.registers rs2 % M32)) % M32))) m
  | .sllw rd rs1 rs2 =>
    .ok (setReg ctx rd (sext32 ((ctx.registers rs1 % M32 <<<
      (ctx.registers rs2 &&& 31)) % M32))) m
  | .srlw rd rs1 rs2 =>
    .ok (setReg ctx rd (sext32 (ctx.registers rs1 % M32 >>> (ctx.registers rs2 &&& 31)))) m
  | .sraw rd rs1 rs2 =>
    .ok (setReg ctx rd (ofInt64 (ashr (toI32 (ctx.registers rs1)) (ctx.registers rs2 &&& 31)))) m
  | .auipc rd imm => .ok (setReg ctx rd (wadd (wsub ctx.pc 4) (ofInt64 imm))) m
  | .beq rs1 rs2 imm =>
    if ctx.registers rs1 = ctx.registers rs2 then
      .ok { ctx with pc := wadd (wsub ctx.pc 4) (ofInt64 imm) } m
    else .ok ctx m
  | .bne rs1 rs2 imm =>
    if ctx.registers rs1 ≠ ctx.registers rs2 then
      .ok { ctx with pc := wadd (wsub ctx.pc 4) (ofInt64 imm) } m
    else .ok ctx m
  | .blt rs1 rs2 imm =>
    if toI64 (ctx.registers rs1) < toI64 (ctx.registers rs2) then
      .ok { ctx with pc := wadd (wsub ctx.pc 4) (ofInt64 imm) } m
    else .ok ctx m
  | .bge rs1 rs2 imm =>
    if toI64 (ctx.registers rs1) ≥ toI64 (ctx.registers rs2) then
      .ok { ctx with pc := wadd (wsub ctx.pc 4) (ofInt64 imm) } m
    else .ok ctx m
  | .bltu rs1 rs2 imm =>
    if ctx.registers rs1 < ctx.registers rs2 then
      .ok { ctx with pc := wadd (wsub ctx.pc 4) (ofInt64 imm) } m
    else .ok ctx m
  | .bgeu rs1 rs2 imm =>
    if ctx.registers rs1 ≥ ctx.registers rs2 then
      .ok { ctx with pc := wadd (wsub ctx.pc 4) (ofInt64 imm) } m
    else .ok ctx m
  | .jalr rd rs1 imm =>
    let newPc := wadd (ctx.registers rs1) (ofInt64 imm) &&& unot 1
    let c := setReg ctx rd ctx.pc
    .ok { c with pc := newPc } m
  | .jal rd imm =>
    let c := setReg ctx rd ctx.pc
    .ok { c with pc := wadd (wsub c.pc 4) (ofInt64 imm) } m
  | .ecall =>
    if ctx.prv = 0 then
      if ext.userOnly then
        .ok (setRegIdx ctx 10 (ext.sys (ctx.registers 17) (ctx.registers 10)
          (ctx.registers 11) (ctx.registers 12) (ctx.registers 13)
          (ctx.registers 14) (ctx.registers 15))) m
      else .fault { ctx with scause := 8, stval := 0 } m
    else
      match sbiCall ext m ctx (ctx.registers 17) (ctx.registers 10) with
      | none => .diverge
      | some (c, ret) => .ok (setRegIdx c 10 ret) m
  | .ebreak => .fault { ctx with scause := 3, stval := 0 } m
  | .csrrw rd rs1 csr =>
    match (if rd ≠ 0 then readCsr ext.cycle ctx csr else (ctx, some 0)) with
    | (c, none) => .fault c m
    | (c, some result) =>
      match writeCsr c csr (c.registers rs1) with
      | (c, false) => .fault c m
      | (c, true) => .ok (setReg c rd result) m
  | .csrrs rd rs1 csr =>
    match readCsr ext.cycle ctx csr with
    | (c, none) => .fault c m
    | (c, some result) =>
      if rs1 ≠ 0 then
        match writeCsr c csr (result ||| c.registers rs1) with
        | (c, false) => .fault c m
        | (c, true) => .ok (setReg c rd result) m
      else .ok (setReg c rd result) m
  | .csrrc rd rs1 csr =>
    match readCsr ext.cycle ctx csr with
    | (c, none) => .fault c m
    | (c, some result) =>
      if rs1 ≠ 0 then
        match writeCsr c csr (result &&& unot (c.registers rs1)) with
        | (c, false) => .fault c m
        | (c, true) => .ok (setReg c rd result) m
      else .ok (setReg c rd result) m
  | .csrrwi rd imm csr =>
    match (if rd ≠ 0 then readCsr ext.cycle ctx csr else (ctx, some 0)) with
    | (c, none) => .fault c m
    | (c, some result) =>
      match writeCsr c csr imm with
      | (c, false) => .fault c m
      | (c, true) => .ok (setReg c rd result) m
  | .csrrsi rd imm csr =>
    match readCsr ext.cycle ctx csr with
    | (c, none) => .fault c m
    | (c, some result) =>
      if imm ≠ 0 then
        match writeCsr c csr (result ||| imm) with
        | (c, false) => .fault c m
        | (c, true) => .ok (setReg c rd result) m
      else .ok (setReg c rd result) m
  | .csrrci rd imm csr =>
    match readCsr ext.cycle ctx csr with
    | (c, none) => .fault c m
    | (c, some result) =>
      if imm ≠ 0 then
        match writeCsr c csr (result &&& unot imm) with
        | (c, false) => .fault c m
        | (c, true) => .ok (setReg c rd result) m
      else .ok (setReg c rd result) m
  | .flw frd rs1 imm =>
    match testAndSetFs ctx with
    | (c, false) => .fault c m
    | (c, true) =>
      let vaddr := wadd (c.registers rs1) (ofInt64 imm)
      if vaddr &&& 3 ≠ 0 then .fault { c with scause := 4, stval := vaddr } m
      else
        match readVaddrP m c vaddr with
        | (c, none) => .fault c m
        | (c, some paddr) => .ok (setFpS c frd (readBytes m paddr 4)) m
  | .fsw rs1 frs2 imm =>
    match testAndSetFs ctx with
    | (c, false) => .fault c m
    | (c, true) =>
      let vaddr := wadd (c.registers rs1) (ofInt64 imm)
      if vaddr &&& 3 ≠ 0 then .fault { c with scause := 5, stval := vaddr } m
      else
        match ptrVaddrX m c vaddr with
        | (c, none) => .fault c m
        | (c, some paddr) => .ok c (writeBytes m paddr (readFs c frs2) 4)
  | .faddS frd frs1 frs2 rm =>
    match setRm ctx rm with
    | (c, none) => .fault c m
    | (c, some rmv) =>
      let (v, fl) := ext.sfp.f32Add rmv (readFs c frs1) (readFs c frs2)
      .ok (accumFlags (setFpS c frd v) fl) m
  | .fsubS frd frs1 frs2 rm =>
    match setRm ctx rm with
    | (c, none) => .fault c m
    | (c, some rmv) =>
      let (v, fl) := ext.sfp.f32Sub rmv (readFs c frs1) (readFs c frs2)
      .ok (accumFlags (setFpS c frd v) fl) m
  | .fmulS frd frs1 frs2 rm =>
    match setRm ctx rm with
    | (c, none) => .fault c m
    | (c, some rmv) =>
      let (v, fl) := ext.sfp.f32Mul rmv (readFs c frs1) (readFs c frs2)
      .ok (accumFlags (setFpS c frd v) fl) m
  | .fdivS frd frs1 frs2 rm =>
    match setRm ctx rm with
    | (c, none) => .fault c m
    | (c, some rmv) =>
      let (v, fl) := ext.sfp.f32Div rmv (readFs c frs1) (readFs c frs2)
      .ok (accumFlags (setFpS c frd v) fl) m
  | .fsqrtS frd frs1 rm =>
    match setRm ctx rm with
    | (c, none) => .fault c m
    | (c, some rmv) =>
      let (v, fl) := ext.sfp.f32Sqrt rmv (readFs c frs1)
      .ok (accumFlags (setFpS c frd v) fl) m
  | .fsgnjS frd frs1 frs2 =>
    match testAndSetFs ctx with
    | (c, false) => .fault c m
    | (c, true) => .ok (setFpS c frd (ext.sfp.f32SgnJ (readFs c frs1) (readFs c frs2))) m
  | .fsgnjnS frd frs1 frs2 =>
    match testAndSetFs ctx with
    | (c, false) => .fault c m
    | (c, true) => .ok (setFpS c frd (ext.sfp.f32SgnJN (readFs c frs1) (readFs c frs2))) m
  | .fsgnjxS frd frs1 frs2 =>
    match testAndSetFs ctx with
    | (c, false) => .fault c m
    | (c, true) => .ok (setFpS c frd (ext.sfp.f32SgnJX (readFs c frs1) (readFs c frs2))) m
  | .fminS frd frs1 frs2 =>
    match testAndSetFs ctx with
    | (c, false) => .fault c m
    | (c, true) =>
      let (v, fl) := ext.sfp.f32Min (readFs c frs1) (readFs c frs2)
      .ok (accumFlags (setFpS c frd v) fl) m
  | .fmaxS frd frs1 frs2 =>
    match testAndSetFs ctx with
    | (c, false) => .fault c m
    | (c, true) =>
      let (v, fl) := ext.sfp.f32Max (readFs c frs1) (readFs c frs2)
      .ok (accumFlags (setFpS c frd v) fl) m
  | .fcvtWS rd frs1 rm =>
    match setRm ctx rm with
    | (c, none) => .fault c m
    | (c, some rmv) =>
      let (v, fl) := ext.sfp.f32CvtToI32 rmv (readFs c frs1)
      .ok (accumFlags (setReg32 c rd v) fl) m
  | .fcvtWuS rd frs1 rm =>
    match setRm ctx rm with
    | (c, none) => .fault c m
    | (c, some rmv) =>
      let (v, fl) := ext.sfp.f32CvtToU32 rmv (readFs c frs1)
      .ok (accumFlags (setReg32 c rd v) fl) m
  | .fcvtLS rd frs1 rm =>
    match setRm ctx rm with
    | (c, none) => .fault c m
    | (c, some rmv) =>
      let (v, fl) := ext.sfp.f32CvtToI64 rmv (readFs c frs1)
      .ok (accumFlags (setReg c rd v) fl) m
  | .fcvtLuS rd frs1 rm =>
    match setRm ctx rm with
    | (c, none) => .fault c m
    | (c, some rmv) =>
      let (v, fl) := ext.sfp.f32CvtToU64 rmv (readFs c frs1)
      .ok (accumFlags (setReg c rd v) fl) m
  | .fmvXW rd frs1 =>
    match testAndSetFs ctx with
    | (c, false) => .fault c m
    | (c, true) => .ok (setReg32 c rd (readFs c frs1)) m
  | .fclassS rd frs1 =>
    match testAndSetFs ctx with
    | (c, false) => .fault c m
    | (c, true) => .ok (setReg c rd ((1 <<< ext.sfp.f32Classify (readFs c frs1)) % M64)) m
  | .feqS rd frs1 frs2 =>
    match testAndSetFs ctx with
    | (c, false) => .fault c m
    | (c, true) =>
      .ok (setReg c rd (if ext.sfp.f32Eq (readFs c frs1) (readFs c frs2) then 1 else 0)) m
  | .fltS rd frs1 frs2 =>
    match testAndSetFs ctx with
    | (c, false) => .fault c m
    | (c, true) =>
      let (b, fl) := ext.sfp.f32Lt (readFs c frs1) (readFs c frs2)
      .ok (accumFlags (setReg c rd (if b then 1 else 0)) fl) m
  | .fleS rd frs1 frs2 =>
    match testAndSetFs ctx with
    | (c, false) => .fault c m
    | (c, true) =>
      let (b, fl) := ext.sfp.f32Le (readFs c frs1) (readFs c frs2)
      .ok (accumFlags (setReg c rd (if b then 1 else 0)) fl) m
  | .fcvtSW frd rs1 rm =>
    match setRm ctx rm with
    | (c, none) => .fault c m
    | (c, some rmv) =>
      let (v, fl) := ext.sfp.f32CvtFromI32 rmv (c.registers rs1 % M32)
      .ok (accumFlags (setFpS c frd v) fl) m
  | .fcvtSWu frd rs1 rm =>
    match setRm ctx rm with
    | (c, none) => .fault c m
    | (c, some rmv) =>
      let (v, fl) := ext.sfp.f32CvtFromU32 rmv (c.registers rs1 % M32)
      .ok (accumFlags (setFpS c frd v) fl) m
  | .fcvtSL frd rs1 rm =>
    match setRm ctx rm with
    | (c, none) => .fault c m
    | (c, some rmv) =>
      let (v, fl) := ext.sfp.f32CvtFromI64 rmv (c.registers rs1)
      .ok (accumFlags (setFpS c frd v) fl) m
  | .fcvtSLu frd rs1 rm =>
    match setRm ctx rm with
    | (c, none) => .fault c m
    | (c, some rmv) =>
      let (v, fl) := ext.sfp.f32CvtFromU64 rmv (c.registers rs1)
      .ok (accumFlags (setFpS c frd v) fl) m
  | .fmvWX frd rs1 =>
    match testAndSetFs ctx with
    | (c, false) => .fault c m
    | (c, true) => .ok (setFpS c frd (c.registers rs1 % M32)) m
  | .fmaddS frd frs1 frs2 frs3 rm =>
    match setRm ctx rm with
    | (c, none) => .fault c m
    | (c, some rmv) =>
      let (v, fl) := ext.sfp.f32Fma rmv (readFs c frs1) (readFs c frs2) (readFs c frs3)
      .ok (accumFlags (setFpS c frd v) fl) m
  | .fmsubS frd frs1 frs2 frs3 rm =>
    match setRm ctx rm with
    | (c, none) => .fault c m
    | (c, some rmv) =>
      let (v, fl) := ext.sfp.f32Fma rmv (readFs c frs1) (readFs c frs2)
        (ext.sfp.f32Neg (readFs c frs3))
      .ok (accumFlags (setFpS c frd v) fl) m
  | .fnmsubS frd frs1 frs2 frs3 rm =>
    match setRm ctx rm with
    | (c, none) => .fault c m
    | (c, some rmv) =>
      let (v, fl) := ext.sfp.f32Fma rmv (ext.sfp.f32Neg (readFs c frs1))
        (readFs c frs2) (readFs c frs3)
      .ok (accumFlags (setFpS c frd v) fl) m
  | .fnmaddS frd frs1 frs2 frs3 rm =>
    match setRm ctx rm with
    | (c, none) => .fault c m
    | (c, some rmv) =>
      let (v, fl) := ext.sfp.f32Fma rmv (readFs c frs1) (readFs c frs2) (readFs c frs3)
      .ok (accumFlags (setFpS c frd (ext.sfp.f32Neg v)) fl) m
  | .fld frd rs1 imm =>
    match testAndSetFs ctx with
    | (c, false) => .fault c m
    | (c, true) =>
      let vaddr := wadd (c.registers rs1) (ofInt64 imm)
      if vaddr &&& 3 ≠ 0 then .fault { c with scause := 4, stval := vaddr } m
      else
        match readVaddrP m c vaddr with
        | (c, none) => .fault c m
        | (c, some paddr) => .ok (setFpD c frd (readBytes m paddr 8)) m
  | .fsd rs1 frs2 imm =>
    match testAndSetFs ctx with
    | (c, false) => .fault c m
    | (c, true) =>
      let vaddr := wadd (c.registers rs1) (ofInt64 imm)
      if vaddr &&& 7 ≠ 0 then .fault { c with scause := 5, stval := vaddr } m
      else
        match ptrVaddrX m c vaddr with
        | (c, none) => .fault c m
        | (c, some paddr) => .ok c (writeBytes m paddr (readFd c frs2) 8)
  | .faddD frd frs1 frs2 rm =>
    match setRm ctx rm with
    | (c, none) => .fault c m
    | (c, some rmv) =>
      let (v, fl) := ext.sfp.f64Add rmv (readFd c frs1) (readFd c frs2)
      .ok (accumFlags (setFpD c frd v) fl) m
  | .fsubD frd frs1 frs2 rm =>
    match setRm ctx rm with
    | (c, none) => .fault c m
    | (c, some rmv) =>
      let (v, fl) := ext.sfp.f64Sub rmv (readFd c frs1) (readFd c frs2)
      .ok (accumFlags (setFpD c frd v) fl) m
  | .fmulD frd frs1 frs2 rm =>
    match setRm ctx rm with
    | (c, none) => .fault c m
    | (c, some rmv) =>
      let (v, fl) := ext.sfp.f64Mul rmv (readFd c frs1) (readFd c frs2)
      .ok (accumFlags (setFpD c frd v) fl) m
  | .fdivD frd frs1 frs2 rm =>
    match setRm ctx rm with
    | (c, none) => .fault c m
    | (c, some rmv) =>
      let (v, fl) := ext.sfp.f64Div rmv (readFd c frs1) (readFd c frs2)
      .ok (accumFlags (setFpD c frd v) fl) m
  | .fsqrtD frd frs1 rm =>
    match setRm ctx rm with
    | (c, none) => .fault c m
    | (c, some rmv) =>
      let (v, fl) := ext.sfp.f64Sqrt rmv (readFd c frs1)
      .ok (accumFlags (setFpD c frd v) fl) m
  | .fsgnjD frd frs1 frs2 =>
    match testAndSetFs ctx with
    | (c, false) => .fault c m
    | (c, true) => .ok (setFpD c frd (ext.sfp.f64SgnJ (readFd c frs1) (readFd c frs2))) m
  | .fsgnjnD frd frs1 frs2 =>
    match testAndSetFs ctx with
    | (c, false) => .fault c m
    | (c, true) => .ok (setFpD c frd (ext.sfp.f64SgnJN (readFd c frs1) (readFd c frs2))) m
  | .fsgnjxD frd frs1 frs2 =>
    match testAndSetFs ctx with
    | (c, false) => .fault c m
    | (c, true) => .ok (setFpD c frd (ext.sfp.f64SgnJX (readFd c frs1) (readFd c frs2))) m
  | .fminD frd frs1 frs2 =>
    match testAndSetFs ctx with
    | (c, false) => .fault c m
    | (c, true) =>
      let (v, fl) := ext.sfp.f64Min (readFd c frs1) (readFd c frs2)
      .ok (accumFlags (setFpD c frd v) fl) m
  | .fmaxD frd frs1 frs2 =>
    match testAndSetFs ctx with
    | (c, false) => .fault c m
    | (c, true) =>
      let (v, fl) := ext.sfp.f64Max (readFd c frs1) (readFd c frs2)
      .ok (accumFlags (setFpD c frd v) fl) m
  | .fcvtSD frd frs1 rm =>
    match setRm ctx rm with
    | (c, none) => .fault c m
    | (c, some rmv) =>
      let (v, fl) := ext.sfp.f64CvtToF32 rmv (readFd c frs1)
      .ok (accumFlags (setFpS c frd v) fl) m
  | .fcvtDS frd frs1 _rm =>
    match testAndSetFs ctx with
    | (c, false) => .fault c m
    | (c, true) =>
      let (v, fl) := ext.sfp.f32CvtToF64 (readFs c frs1)
      .ok (accumFlags (setFpD c frd v) fl) m
  | .fcvtWD rd frs1 rm =>
    match setRm ctx rm with
    | (c, none) => .fault c m
    | (c, some rmv) =>
      let (v, fl) := ext.sfp.f64CvtToI32 rmv (readFd c frs1)
      .ok (accumFlags (setReg32 c rd v) fl) m
  | .fcvtWuD rd frs1 rm =>
    match setRm ctx rm with
    | (c, none) => .fault c m
    | (c, some rmv) =>
      let (v, fl) := ext.sfp.f64CvtToU32 rmv (readFd c frs1)
      .ok (accumFlags (setReg32 c rd v) fl) m
  | .fcvtLD rd frs1 rm =>
    match setRm ctx rm with
    | (c, none) => .fault c m
    | (c, some rmv) =>
      let (v, fl) := ext.sfp.f64CvtToI64 rmv (readFd c frs1)
      .ok (accumFlags (setReg c rd v) fl) m
  | .fcvtLuD rd frs1 rm =>
    match setRm ctx rm with
    | (c, none) => .fault c m
    | (c, some rmv) =>
      let (v, fl) := ext.sfp.f64CvtToU64 rmv (readFd c frs1)
      .ok (accumFlags (setReg c rd v) fl) m
  | .fmvXD rd frs1 =>
    match testAndSetFs ctx with
    | (c, false) => .fault c m
    | (c, true) => .ok (setReg c rd (readFd c frs1)) m
  | .fclassD rd frs1 =>
    match testAndSetFs ctx with
    | (c, false) => .fault c m
    | (c, true) => .ok (setReg c rd ((1 <<< ext.sfp.f64Classify (readFd c frs1)) % M64)) m
  | .feqD rd frs1 frs2 =>
    match testAndSetFs ctx with
    | (c, false) => .fault c m
    | (c, true) =>
      .ok (setReg c rd (if ext.sfp.f64Eq (readFd c frs1) (readFd c frs2) then 1 else 0)) m
  | .fltD rd frs1 frs2 =>
    match testAndSetFs ctx with
    | (c, false) => .fault c m
    | (c, true) =>
      let (b, fl) := ext.sfp.f64Lt (readFd c frs1) (readFd c frs2)
      .ok (accumFlags (setReg c rd (if b then 1 else 0)) fl) m
  | .fleD rd frs1 frs2 =>
    match testAndSetFs ctx with
    | (c, false) => .fault c m
    | (c, true) =>
      let (b, fl) := ext.sfp.f64Le (readFd c frs1) (readFd c frs2)
      .ok (accumFlags (setReg c rd (if b then 1 else 0)) fl) m
  | .fcvtDW frd rs1 rm =>
    match setRm ctx rm with
    | (c, none) => .fault c m
    | (c, some rmv) =>
      let (v, fl) := ext.sfp.f64CvtFromI32 rmv (c.registers rs1 % M32)
      .ok (accumFlags (setFpD c frd v) fl) m
  | .fcvtDWu frd rs1 rm =>
    match setRm ctx rm with
    | (c, none) => .fault c m
    | (c, some rmv) =>
      let (v, fl) := ext.sfp.f64CvtFromU32 rmv (c.registers rs1 % M32)
      .ok (accumFlags (setFpD c frd v) fl) m
  | .fcvtDL frd rs1 rm =>
    match setRm ctx rm with
    | (c, none) => .fault c m
    | (c, some rmv) =>
      let (v, fl) := ext.sfp.f64CvtFromI64 rmv (c.registers rs1)
      .ok (accumFlags (setFpD c frd v) fl) m
  | .fcvtDLu frd rs1 rm =>
    match setRm ctx rm with
    | (c, none) => .fault c m
    | (c, some rmv) =>
      let (v, fl) := ext.sfp.f64CvtFromU64 rmv (c.registers rs1)
      .ok (accumFlags (setFpD c frd v) fl) m
  | .fmvDX frd rs1 =>
    match testAndSetFs ctx with
    | (c, false) => .fault c m
    | (c, true) => .ok (setFpD c frd (c.registers rs1)) m
  | .fmaddD frd frs1 frs2 frs3 rm =>
    match setRm ctx rm with
    | (c, none) => .fault c m
    | (c, some rmv) =>
      let (v, fl) := ext.sfp.f64Fma rmv (readFd c frs1) (readFd c frs2) (readFd c frs3)
      .ok (accumFlags (setFpD c frd v) fl) m
  | .fmsubD frd frs1 frs2 frs3 rm =>
    match setRm ctx rm with
    | (c, none) => .fault c m
    | (c, some rmv) =>
      let (v, fl) := ext.sfp.f64Fma rmv (readFd c frs1) (readFd c frs2)
        (ext.sfp.f64Neg (readFd c frs3))
      .ok (accumFlags (setFpD c frd v) fl) m
  | .fnmsubD frd frs1 frs2 frs3 rm =>
    match setRm ctx rm with
    | (c, none) => .fault c m
    | (c, some rmv) =>
      let (v, fl) := ext.sfp.f64Fma rmv (ext.sfp.f64Neg (readFd c frs1))
        (readFd c frs2) (readFd c frs3)
      .ok (accumFlags (setFpD c frd v) fl) m
  | .fnmaddD frd frs1 frs2 frs3 rm =>
    match setRm ctx rm with
    | (c, none) => .fault c m
    | (c, some rmv) =>
      let (v, fl) := ext.sfp.f64Fma rmv (readFd c frs1) (readFd c frs2) (readFd c frs3)
      .ok (accumFlags (setFpD c frd (ext.sfp.f64Neg v)) fl) m
  | .mul rd rs1 rs2 =>
    .ok (setReg ctx rd ((ctx.registers rs1 * ctx.registers rs2) % M64)) m
  | .mulh rd rs1 rs2 =>
    .ok (setReg ctx rd (ofInt64 (Int.fdiv
      (toI64 (ctx.registers rs1) * toI64 (ctx.registers rs2)) (2 ^ 64)))) m
  | .mulhsu rd rs1 rs2 =>
    let a := toI64 (ctx.registers rs1)
    let exta := ctx.registers rs1 % M64
    let b := ctx.registers rs2 % M64
    let r := exta * b / M64
    .ok (setReg ctx rd (if a < 0 then wsub r b else r)) m
  | .mulhu rd rs1 rs2 =>
    .ok (setReg ctx rd (ctx.registers rs1 % M64 * (ctx.registers rs2 % M64) / M64)) m
  | .div rd rs1 rs2 =>
    let a := toI64 (ctx.registers rs1)
    let b := toI64 (ctx.registers rs2)
    .ok (setReg ctx rd (if b = 0 then M64 - 1 else ofInt64 (Int.tdiv a b))) m
  | .divu rd rs1 rs2 =>
    let a := ctx.registers rs1 % M64
    let b := ctx.registers rs2 % M64
    .ok (setReg ctx rd (if b = 0 then M64 - 1 else a / b)) m
  | .rem rd rs1 rs2 =>
    let a := toI64 (ctx.registers rs1)
    let b := toI64 (ctx.registers rs2)
    .ok (setReg ctx rd (if b = 0 then ofInt64 a else ofInt64 (Int.tmod a b))) m
  | .remu rd rs1 rs2 =>
    let a := ctx.registers rs1 % M64
    let b := ctx.registers rs2 % M64
    .ok (setReg ctx rd (if b = 0 then a else a % b)) m
  | .mulw rd rs1 rs2 =>
    .ok (setReg ctx rd (sext32 (ctx.registers rs1 % M32 * (ctx.registers rs2 % M32) % M32))) m
  | .divw rd rs1 rs2 =>
    let a := toI32 (ctx.registers rs1)
    let b := toI32 (ctx.registers rs2)
    .ok (setReg ctx rd (if b = 0 then M64 - 1 else sext32 (ofInt32 (Int.tdiv a b)))) m
  | .divuw rd rs1 rs2 =>
    let a := ctx.registers rs1 % M32
    let b := ctx.registers rs2 % M32
    .ok (setReg ctx rd (sext32 (if b = 0 then M32 - 1 else a / b))) m
  | .remw rd rs1 rs2 =>
    let a := toI32 (ctx.registers rs1)
    let b := toI32 (ctx.registers rs2)
    .ok (setReg ctx rd (if b = 0 then sext32 (ctx.registers rs1)
      else sext32 (ofInt32 (Int.tmod a b)))) m
  | .remuw rd rs1 rs2 =>
    let a := ctx.registers rs1 % M32
    let b := ctx.registers rs2 % M32
    .ok (setReg ctx rd (sext32 (if b = 0 then a else a % b))) m
  | .lrW rd rs1 =>
    let addr := ctx.registers rs1
    if addr &&& 3 ≠ 0 then .fault { ctx with scause := 5, stval := addr } m
    else
      match ptrVaddrX m ctx addr with
      | (c, none) => .fault c m
      | (c, some paddr) =>
        let value := sext32 (readBytes m paddr 4)
        .ok { setReg c rd value with lr_addr := addr, lr_value := value } m
  | .lrD rd rs1 =>
    let addr := ctx.registers rs1
    if addr &&& 7 ≠ 0 then .fault { ctx with scause := 5, stval := addr } m
    else
      match ptrVaddrX m ctx addr with
      | (c, none) => .fault c m
      | (c, some paddr) =>
        let value := readBytes m paddr 8
        .ok { setReg c rd value with lr_addr := addr, lr_value := value } m
  | .scW rd rs1 rs2 =>
    let addr := ctx.registers rs1
    if addr &&& 3 ≠ 0 then .fault { ctx with scause := 5, stval := addr } m
    else
      let src := ctx.registers rs2 % M32
      if addr ≠ ctx.lr_addr then .ok (setReg ctx rd 1) m
      else
        match ptrVaddrX m ctx addr with
        | (c, none) => .fault c m
        | (c, some paddr) =>
          if readBytes m paddr 4 = c.lr_value % M32 then
            .ok (setReg c rd 0) (writeBytes m paddr src 4)
          else .ok (setReg c rd 1) m
  | .scD rd rs1 rs2 =>
    let addr := ctx.registers rs1
    if addr &&& 7 ≠ 0 then .fault { ctx with scause := 5, stval := addr } m
    else
      let src := ctx.registers rs2 % M64
      if addr ≠ ctx.lr_addr then .ok (setReg ctx rd 1) m
      else
        match ptrVaddrX m ctx addr with
        | (c, none) => .fault c m
        | (c, some paddr) =>
          if readBytes m paddr 8 = c.lr_value % M64 then
            .ok (setReg c rd 0) (writeBytes m paddr src 8)
          else .ok (setReg c rd 1) m
  | .amoswapW rd rs1 rs2 =>
    let addr := ctx.registers rs1
    if addr &&& 3 ≠ 0 then .fault { ctx with scause := 5, stval := addr } m
    else
      let src := ctx.registers rs2 % M32
      match ptrVaddrX m ctx addr with
      | (c, none) => .fault c m
      | (c, some paddr) =>
        let current := readBytes m paddr 4
        .ok (setReg32 c rd current) (writeBytes m paddr src 4)
  | .amoswapD rd rs1 rs2 =>
    let addr := ctx.registers rs1
    if addr &&& 7 ≠ 0 then .fault { ctx with scause := 5, stval := addr } m
    else
      let src := ctx.registers rs2 % M64
      match ptrVaddrX m ctx addr with
      | (c, none) => .fault c m
      | (c, some paddr) =>
        let current := readBytes m paddr 8
        .ok (setReg c rd current) (writeBytes m paddr src 8)
  | .amoaddW rd rs1 rs2 =>
    let addr := ctx.registers rs1
    if addr &&& 3 ≠ 0 then .fault { ctx with scause := 5, stval := addr } m
    else
      let src := ctx.registers rs2 % M32
      match ptrVaddrX m ctx addr with
      | (c, none) => .fault c m
      | (c, some paddr) =>
        let current := readBytes m paddr 4
        .ok (setReg32 c rd current) (writeBytes m paddr ((current + src) % M32) 4)
  | .amoaddD rd rs1 rs2 =>
    let addr := ctx.registers rs1
    if addr &&& 7 ≠ 0 then .fault { ctx with scause := 5, stval := addr } m
    else
      let src := ctx.registers rs2 % M64
      match ptrVaddrX m ctx addr with
      | (c, none) => .fault c m
      | (c, some paddr) =>
        let current := readBytes m paddr 8
        .ok (setReg c rd current) (writeBytes m paddr ((current + src) % M64) 8)
  | .amoandW rd rs1 rs2 =>
    let addr := ctx.registers rs1
    if addr &&& 3 ≠ 0 then .fault { ctx with scause := 5, stval := addr } m
    else
      let src := ctx.registers rs2 % M32
      match ptrVaddrX m ctx addr with
      | (c, none) => .fault c m
      | (c, some paddr) =>
        let current := readBytes m paddr 4
        .ok (setReg32 c rd current) (writeBytes m paddr (current &&& src) 4)
  | .amoandD rd rs1 rs2 =>
    let addr := ctx.registers rs1
    if addr &&& 7 ≠ 0 then .fault { ctx with scause := 5, stval := addr } m
    else
      let src := ctx.registers rs2 % M64
      match ptrVaddrX m ctx addr with
      | (c, none) => .fault c m
      | (c, some paddr) =>
        let current := readBytes m paddr 8
        .ok (setReg c rd current) (writeBytes m paddr (current &&& src) 8)
  | .amoorW rd rs1 rs2 =>
    let addr := ctx.registers rs1
    if addr &&& 3 ≠ 0 then .fault { ctx with scause := 5, stval := addr } m
    else
      let src := ctx.registers rs2 % M32
      match ptrVaddrX m ctx addr with
      | (c, none) => .fault c m
      | (c, some paddr) =>
        let current := readBytes m paddr 4
        .ok (setReg32 c rd current) (writeBytes m paddr (current ||| src) 4)
  | .amoorD rd rs1 rs2 =>
    let addr := ctx.registers rs1
    if addr &&& 7 ≠ 0 then .fault { ctx with scause := 5, stval := addr } m
    else
      let src := ctx.registers rs2 % M64
      match ptrVaddrX m ctx addr with
      | (c, none) => .fault c m
      | (c, some paddr) =>
        let current := readBytes m paddr 8
        .ok (setReg c rd current) (writeBytes m paddr (current ||| src) 8)
  | .amoxorW rd rs1 rs2 =>
    let addr := ctx.registers rs1
    if addr &&& 3 ≠ 0 then .fault { ctx with scause := 5, stval := addr } m
    else
      let src := ctx.registers rs2 % M32
      match ptrVaddrX m ctx addr with
      | (c, none) => .fault c m
      | (c, some paddr) =>
        let current := readBytes m paddr 4
        .ok (setReg32 c rd current) (writeBytes m paddr (current ^^^ src) 4)
  | .amoxorD rd rs1 rs2 =>
    let addr := ctx.registers rs1
    if addr &&& 7 ≠ 0 then .fault { ctx with scause := 5, stval := addr } m
    else
      let src := ctx.registers rs2 % M64
      match ptrVaddrX m ctx addr with
      | (c, none) => .fault c m
      | (c, some paddr) =>
        let current := readBytes m paddr 8
        .ok (setReg c rd current) (writeBytes m paddr (current ^^^ src) 8)
  | .amominW rd rs1 rs2 =>
    let addr := ctx.registers rs1
    if addr &&& 3 ≠ 0 then .fault { ctx with scause := 5, stval := addr } m
    else
      let src := ctx.registers rs2 % M32
      match ptrVaddrX m ctx addr with
      | (c, none) => .fault c m
      | (c, some paddr) =>
        let current := readBytes m paddr 4
        let newVal := if toI32 src < toI32 current then src else current
        .ok (setReg32 c rd current) (writeBytes m paddr newVal 4)
  | .amominD rd rs1 rs2 =>
    let addr := ctx.registers rs1
    if addr &&& 7 ≠ 0 then .fault { ctx with scause := 5, stval := addr } m
    else
      let src := ctx.registers rs2 % M64
      match ptrVaddrX m ctx addr with
      | (c, none) => .fault c m
      | (c, some paddr) =>
        let current := readBytes m paddr 8
        let newVal := if toI64 src < toI64 current then src else current
        .ok (setReg c rd current) (writeBytes m paddr newVal 8)
  | .amomaxW rd rs1 rs2 =>
    let addr := ctx.registers rs1
    if addr &&& 3 ≠ 0 then .fault { ctx with scause := 5, stval := addr } m
    else
      let src := ctx.registers rs2 % M32
      match ptrVaddrX m ctx addr with
      | (c, none) => .fault c m
      | (c, some paddr) =>
        let current := readBytes m paddr 4
        let newVal := if toI32 current < toI32 src then src else current
        .ok (setReg32 c rd current) (writeBytes m paddr newVal 4)
  | .amomaxD rd rs1 rs2 =>
    let addr := ctx.registers rs1
    if addr &&& 7 ≠ 0 then .fault { ctx with scause := 5, stval := addr } m
    else
      let src := ctx.registers rs2 % M64
      match ptrVaddrX m ctx addr with
      | (c, none) => .fault c m
      | (c, some paddr) =>
        let current := readBytes m paddr 8
        let newVal := if toI64 current < toI64 src then src else current
        .ok (setReg c rd current) (writeBytes m paddr newVal 8)
  | .amominuW rd rs1 rs2 =>
    let addr := ctx.registers rs1
    if addr &&& 3 ≠ 0 then .fault { ctx with scause := 5, stval := addr } m
    else
      let src := ctx.registers rs2 % M32
      match ptrVaddrX m ctx addr with
      | (c, none) => .fault c m
      | (c, some paddr) =>
        let current := readBytes m paddr 4
        let newVal := if src < current then src else current
        .ok (setReg32 c rd current) (writeBytes m paddr newVal 4)
  | .amominuD rd rs1 rs2 =>
    let addr := ctx.registers rs1
    if addr &&& 7 ≠ 0 then .fault { ctx with scause := 5, stval := addr } m
    else
      let src := ctx.registers rs2 % M64
      match ptrVaddrX m ctx addr with
      | (c, none) => .fault c m
      | (c, some paddr) =>
        let current := readBytes m paddr 8
        let newVal := if src < current then src else current
        .ok (setReg c rd current) (writeBytes m paddr newVal 8)
  | .amomaxuW rd rs1 rs2 =>
    let addr := ctx.registers rs1
    if addr &&& 3 ≠ 0 then .fault { ctx with scause := 5, stval := addr } m
    else
      let src := ctx.registers rs2 % M32
      match ptrVaddrX m ctx addr with
      | (c, none) => .fault c m
      | (c, some paddr) =>
        let current := readBytes m paddr 4
        let newVal := if current < src then src else current
        .ok (setReg32 c rd current) (writeBytes m paddr newVal 4)
  | .amomaxuD rd rs1 rs2 =>
    let addr := ctx.registers rs1
    if addr &&& 7 ≠ 0 then .fault { ctx with scause := 5, stval := addr } m
    else
      let src := ctx.registers rs2 % M64
      match ptrVaddrX m ctx addr with
      | (c, none) => .fault c m
      | (c, some paddr) =>
        let current := readBytes m paddr 8
        let newVal := if current < src then src else current
        .ok (setReg c rd current) (writeBytes m paddr newVal 8)
  | .sret =>
    if ctx.prv ≠ 1 then .fault { ctx with scause := 2, stval := 0 } m
    else
      let c := { ctx with pc := ctx.sepc }
      let c :=
        if c.sstatus &&& 0x100 ≠ 0 then { c with prv := 1 }
        else clearLocalIcache (clearLocalCache { c with prv := 0 })
      let c :=
        if c.sstatus &&& 0x20 ≠ 0 then { c with sstatus := c.sstatus ||| 0x2 }
        else { c with sstatus := c.sstatus &&& unot 0x2 }
      let c := { c with sstatus := c.sstatus ||| 0x20 }
      .ok { c with sstatus := c.sstatus &&& unot 0x100 } m
  | .wfi =>
    if ctx.prv ≠ 1 then .fault { ctx with scause := 2, stval := 0 } m
    else .ok ctx m
  | .sfenceVma _rs1 _rs2 =>
    if ctx.prv ≠ 1 then .fault { ctx with scause := 2, stval := 0 } m
    else .ok (clearLocalIcache (clearLocalCache ctx)) m

/-! Integer registers are only modified through the write-back helpers;
every other state transformer leaves the register file untouched. -/

@[simp] theorem setReg_reg0 (ctx : Context) (rd : Fin 32) (v : Nat) :
    (setReg ctx rd v).registers 0 = ctx.registers 0 := by
  by_cases hrd : rd = (0 : Fin 32)
  · simp [setReg, hrd]
  · simp [setReg, hrd, Function.update_noteq (Ne.symm hrd)]

@[simp] theorem setReg32_reg0 (ctx : Context) (rd : Fin 32) (v : Nat) :
    (setReg32 ctx rd v).registers 0 = ctx.registers 0 := setReg_reg0 ctx rd (sext32 v)

@[simp] theorem setRegIdx10_reg0 (ctx : Context) (v : Nat) :
    (setRegIdx ctx 10 v).registers 0 = ctx.registers 0 := by
  simp [setRegIdx, Function.update_noteq (by decide : (0 : Fin 32) ≠ 10)]

@[simp] theorem setFpS_registers (ctx : Context) (frd : Fin 32) (v : Nat) :
    (setFpS ctx frd v).registers = ctx.registers := rfl

@[simp] theorem setFpD_registers (ctx : Context) (frd : Fin 32) (v : Nat) :
    (setFpD ctx frd v).registers = ctx.registers := rfl

@[simp] theorem accumFlags_registers (ctx : Context) (fl : Nat) :
    (accumFlags ctx fl).registers = ctx.registers := rfl

@[simp] theorem clearLocalCache_registers (ctx : Context) :
    (clearLocalCache ctx).registers = ctx.registers := rfl

@[simp] theorem clearLocalIcache_registers (ctx : Context) :
    (clearLocalIcache ctx).registers = ctx.registers := rfl

@[simp] theorem sharedAssert_registers (ctx : Context) (mask : Nat) :
    (sharedAssert ctx mask).registers = ctx.registers := by
  simp only [sharedAssert]
  split <;> rfl

@[simp] theorem sharedDeassert_registers (ctx : Context) (mask : Nat) :
    (sharedDeassert ctx mask).registers = ctx.registers := rfl

@[simp] theorem sharedAlert_registers (ctx : Context) :
    (sharedAlert ctx).registers = ctx.registers := rfl

@[simp] theorem testAndSetFs_registers (ctx : Context) :
    (testAndSetFs ctx).1.registers = ctx.registers := by
  unfold testAndSetFs
  split <;> rfl

/-- Extract register preservation from an equation naming the pair
returned by testAndSetFs. -/
theorem testAndSetFs_pair_registers {ctx c : Context} {b : Bool}
    (h : testAndSetFs ctx = (c, b)) : c.registers = ctx.registers := by
  have hh := congrArg (fun p => p.1.registers) h
  simpa using hh.symm

@[simp] theorem setRm_registers (ctx : Context) (rm : Nat) :
    (setRm ctx rm).1.registers = ctx.registers := by
  unfold setRm
  split
  all_goals rename_i c hc
  all_goals have hr := testAndSetFs_pair_registers hc
  · simpa using hr
  · split <;> (dsimp only; split <;> simp [hr])

@[simp] theorem translateCacheMiss_registers (m : Mem) (ctx : Context)
    (addr : Nat) (write : Bool) :
    (translateCacheMiss m ctx addr write).1.registers = ctx.registers := by
  simp only [translateCacheMiss]
  repeat' split
  all_goals rfl

@[simp] theorem readVaddrP_registers (m : Mem) (ctx : Context) (addr : Nat) :
    (readVaddrP m ctx addr).1.registers = ctx.registers := by
  simp only [readVaddrP]
  split
  · simp
  · rfl

@[simp] theorem ptrVaddrX_registers (m : Mem) (ctx : Context) (addr : Nat) :
    (ptrVaddrX m ctx addr).1.registers = ctx.registers := by
  simp only [ptrVaddrX]
  split
  · simp
  · rfl

@[simp] theorem readCsr_registers (cycle : Nat) (ctx : Context) (csr : Csr) :
    (readCsr cycle ctx csr).1.registers = ctx.registers := by
  unfold readCsr
  split
  · rfl
  · split <;> (repeat' split) <;>
      first
      | rfl
      | (rename_i hc; simp [testAndSetFs_pair_registers hc])

@[simp] theorem writeCsr_registers (ctx : Context) (csr : Csr) (v : Nat) :
    (writeCsr ctx csr v).1.registers = ctx.registers := by
  unfold writeCsr
  split
  · rfl
  · split <;> (repeat' split) <;>
      first
      | rfl
      | (rename_i hc; simp [testAndSetFs_pair_registers hc])
      | (simp
         try (split <;> simp)
         done)

theorem sbiCall_registers (ext : Ext) (m : Mem) (ctx : Context) (nr a0 : Nat)
    (p : Context × Nat) (h : sbiCall ext m ctx nr a0 = some p) :
    p.1.registers = ctx.registers := by
  unfold sbiCall at h
  repeat' split at h
  all_goals try (dsimp only at h; repeat' split at h)
  all_goals first
    | (injection h with h; subst h; simp)
    | exact Option.noConfusion h

theorem readVaddrP_pair_registers {m : Mem} {ctx : Context} {addr : Nat}
    {c : Context} {r : Option Nat} (h : readVaddrP m ctx addr = (c, r)) :
    c.registers = ctx.registers := by
  have hh := congrArg (fun p => p.1.registers) h
  simpa using hh.symm

theorem ptrVaddrX_pair_registers {m : Mem} {ctx : Context} {addr : Nat}
    {c : Context} {r : Option Nat} (h : ptrVaddrX m ctx addr = (c, r)) :
    c.registers = ctx.registers := by
  have hh := congrArg (fun p => p.1.registers) h
  simpa using hh.symm

theorem readCsr_pair_registers {cycle : Nat} {ctx : Context} {csr : Csr}
    {c : Context} {r : Option Nat} (h : readCsr cycle ctx csr = (c, r)) :
    c.registers = ctx.registers := by
  have hh := congrArg (fun p => p.1.registers) h
  simpa using hh.symm

theorem writeCsr_pair_registers {ctx : Context} {csr : Csr} {v : Nat}
    {c : Context} {b : Bool} (h : writeCsr ctx csr v = (c, b)) :
    c.registers = ctx.registers := by
  have hh := congrArg (fun p => p.1.registers) h
  simpa using hh.symm

theorem setRm_pair_registers {ctx : Context} {rm : Nat}
    {c : Context} {r : Option Nat} (h : setRm ctx rm = (c, r)) :
    c.registers = ctx.registers := by
  have hh := congrArg (fun p => p.1.registers) h
  simpa using hh.symm

/-- The context delivered by a step outcome, when the step returned. -/
def resultCtx : StepResult → Option Context
  | .ok c _ => some c
  | .fault c _ => some c
  | .diverge => none

/-- A trivial soft-float capability used to instantiate step on concrete
inputs: every operation returns zero with no exception flags. -/
def sfp0 : SoftFP where
  f32Add := fun _ _ _ => (0, 0)
  f32Sub := fun _ _ _ => (0, 0)
  f32Mul := fun _ _ _ => (0, 0)
  f32Div := fun _ _ _ => (0, 0)
  f32Sqrt := fun _ _ => (0, 0)
  f32SgnJ := fun _ _ => 0
  f32SgnJN := fun _ _ => 0
  f32SgnJX := fun _ _ => 0
  f32Min := fun _ _ => (0, 0)
  f32Max := fun _ _ => (0, 0)
  f32CvtToI32 := fun _ _ => (0, 0)
  f32CvtToU32 := fun _ _ => (0, 0)
  f32CvtToI64 := fun _ _ => (0, 0)
  f32CvtToU64 := fun _ _ => (0, 0)
  f32CvtFromI32 := fun _ _ => (0, 0)
  f32CvtFromU32 := fun _ _ => (0, 0)
  f32CvtFromI64 := fun _ _ => (0, 0)
  f32CvtFromU64 := fun _ _ => (0, 0)
  f32Classify := fun _ => 0
  f32Eq := fun _ _ => false
  f32Lt := fun _ _ => (false, 0)
  f32Le := fun _ _ => (false, 0)
  f32Fma := fun _ _ _ _ => (0, 0)
  f32Neg := fun _ => 0
  f32CvtToF64 := fun _ => (0, 0)
  f64Add := fun _ _ _ => (0, 0)
  f64Sub := fun _ _ _ => (0, 0)
  f64Mul := fun _ _ _ => (0, 0)
  f64Div := fun _ _ _ => (0, 0)
  f64Sqrt := fun _ _ => (0, 0)
  f64SgnJ := fun _ _ => 0
  f64SgnJN := fun _ _ => 0
  f64SgnJX := fun _ _ => 0
  f64Min := fun _ _ => (0, 0)
  f64Max := fun _ _ => (0, 0)
  f64CvtToI32 := fun _ _ => (0, 0)
  f64CvtToU32 := fun _ _ => (0, 0)
  f64CvtToI64 := fun _ _ => (0, 0)
  f64CvtToU64 := fun _ _ => (0, 0)
  f64CvtFromI32 := fun _ _ => (0, 0)
  f64CvtFromU32 := fun _ _ => (0, 0)
  f64CvtFromI64 := fun _ _ => (0, 0)
  f64CvtFromU64 := fun _ _ => (0, 0)
  f64Classify := fun _ => 0
  f64Eq := fun _ _ => false
  f64Lt := fun _ _ => (false, 0)
  f64Le := fun _ _ => (false, 0)
  f64Fma := fun _ _ _ _ => (0, 0)
  f64Neg := fun _ => 0
  f64CvtToF32 := fun _ _ => (0, 0)

/-- Concrete external collaborators in full-system mode: trivial
soft-float, cycle 0, no console byte, syscall shim returning 0. -/
def ext0 : Ext where
  sfp := sfp0
  cycle := 0
  userOnly := false
  getchar := 0
  sys := fun _ _ _ _ _ _ _ => 0

/-- C9: the zero register is hard-wired.  Whenever step returns, with
success or with a guest trap, a context whose register 0 was 0 still has
register 0 equal to 0: every write-back to index 0 is discarded by the
write_reg and write_32 macros. -/
theorem c9_register_zero (ext : Ext) (ctx : Context) (m : Mem) (op : Op)
    (h : ctx.registers 0 = 0) :
    ∀ c, resultCtx (step ext ctx m op) = some c → c.registers 0 = 0 := by
  intro c hc
  cases op <;>
    (simp only [step] at hc
     repeat' split at hc
     all_goals try (dsimp only at hc; repeat' split at hc)
     all_goals simp only [resultCtx] at hc
     all_goals first
       | exact Option.noConfusion hc
       | (injection hc with hc
          subst hc
          first
          | (simp [h]; done)
          | (try simp only [Prod.ext_iff] at *
             try casesm* _ ∧ _
             subst_vars
             first
             | (simp [h]; done)
             | (split <;> (simp [h]; done))
             | (rename_i d
                have hs := sbiCall_registers _ _ _ _ _ _ d
                simp at hs
                simp [h, hs]
                done))))

/-- C9 witness: the reset hart has register 0 equal to 0, and after a lui
targeting register 0 the write is discarded and register 0 is still 0. -/
theorem c9_register_zero_witness :
    ctx0.registers 0 = 0 ∧ (setReg ctx0 0 (ofInt64 5)).registers 0 = 0 :=
  ⟨rfl, c9_register_zero ext0 ctx0 mem0 (.lui 0 5) rfl
    (setReg ctx0 0 (ofInt64 5)) rfl⟩

/-- C4: sret from supervisor mode jumps to sepc, restores the privilege
from SPP (bit 8), moves SPIE (bit 5) into SIE (bit 1), then sets SPIE and
clears SPP; when the restored privilege is U both L0 caches are flushed;
from any other privilege sret raises an illegal-instruction trap with
scause 2 and stval 0. -/
theorem c4_sret (ext : Ext) (ctx : Context) (m : Mem) :
    (ctx.prv = 1 →
      ∃ c, step ext ctx m Op.sret = .ok c m ∧
        c.pc = ctx.sepc ∧
        c.prv = (if ctx.sstatus.testBit 8 = true then 1 else 0) ∧
        c.sstatus.testBit 1 = ctx.sstatus.testBit 5 ∧
        c.sstatus.testBit 5 = true ∧
        c.sstatus.testBit 8 = false ∧
        (ctx.sstatus.testBit 8 = false →
          ∀ i, (c.line i).tag = 2 ^ 63 - 1 ∧ (c.i_line i).tag = 2 ^ 63 - 1)) ∧
    (ctx.prv ≠ 1 →
      step ext ctx m Op.sret = .fault { ctx with scause := 2, stval := 0 } m) := by
  have e8 : (ctx.sstatus &&& 0x100 ≠ 0) ↔ ctx.sstatus.testBit 8 = true := by
    rw [show (0x100 : Nat) = 2 ^ 8 by norm_num]; exact and_two_pow_ne_zero _ 8
  have e5 : (ctx.sstatus &&& 0x20 ≠ 0) ↔ ctx.sstatus.testBit 5 = true := by
    rw [show (0x20 : Nat) = 2 ^ 5 by norm_num]; exact and_two_pow_ne_zero _ 5
  have h1lt : (1 : Nat) < 64 := by norm_num
  have h5lt : (5 : Nat) < 64 := by norm_num
  have h8lt : (8 : Nat) < 64 := by norm_num
  constructor
  · intro h1
    simp only [step]
    rw [if_neg (by simp [h1])]
    refine ⟨_, rfl, ?_⟩
    dsimp only
    by_cases h8 : ctx.sstatus.testBit 8 = true
    · rw [if_pos (e8.mpr h8)]
      dsimp only
      by_cases h5 : ctx.sstatus.testBit 5 = true
      · rw [if_pos (e5.mpr h5)]
        dsimp only
        refine ⟨rfl, by simp [h8], ?_, ?_, ?_, ?_⟩
        · simp [Nat.testBit_land, Nat.testBit_lor, unot_testBit 0x100 h1lt,
            testBit_lit2, testBit_lit32, testBit_lit256, h5]
        · simp [Nat.testBit_land, Nat.testBit_lor, unot_testBit 0x100 h5lt,
            testBit_lit32, testBit_lit256]
        · simp [Nat.testBit_land, Nat.testBit_lor, unot_testBit 0x100 h8lt,
            testBit_lit32, testBit_lit256]
        · intro hh; rw [h8] at hh; exact Bool.noConfusion hh
      · have h5f : ctx.sstatus.testBit 5 = false := by simpa using h5
        rw [if_neg (fun hc => h5 (e5.mp hc))]
        dsimp only
        refine ⟨rfl, by simp [h8], ?_, ?_, ?_, ?_⟩
        · simp [Nat.testBit_land, Nat.testBit_lor, unot_testBit 0x100 h1lt,
            unot_testBit 0x2 h1lt, testBit_lit2, testBit_lit32, testBit_lit256, h5f]
        · simp [Nat.testBit_land, Nat.testBit_lor, unot_testBit 0x100 h5lt,
            testBit_lit32, testBit_lit256]
        · simp [Nat.testBit_land, Nat.testBit_lor, unot_testBit 0x100 h8lt,
            testBit_lit32, testBit_lit256]
        · intro hh; rw [h8] at hh; exact Bool.noConfusion hh
    · have h8f : ctx.sstatus.testBit 8 = false := by simpa using h8
      rw [if_neg (fun hc => h8 (e8.mp hc))]
      simp only [clearLocalCache, clearLocalIcache]
      try dsimp only
      by_cases h5 : ctx.sstatus.testBit 5 = true
      · rw [if_pos (e5.mpr h5)]
        dsimp only
        refine ⟨rfl, by simp [h8f], ?_, ?_, ?_, ?_⟩
        · simp [Nat.testBit_land, Nat.testBit_lor, unot_testBit 0x100 h1lt,
            testBit_lit2, testBit_lit32, testBit_lit256, h5]
        · simp [Nat.testBit_land, Nat.testBit_lor, unot_testBit 0x100 h5lt,
            testBit_lit32, testBit_lit256]
        · simp [Nat.testBit_land, Nat.testBit_lor, unot_testBit 0x100 h8lt,
            testBit_lit32, testBit_lit256]
        · intro _ i; exact ⟨rfl, rfl⟩
      · have h5f : ctx.sstatus.testBit 5 = false := by simpa using h5
        rw [if_neg (fun hc => h5 (e5.mp hc))]
        dsimp only
        refine ⟨rfl, by simp [h8f], ?_, ?_, ?_, ?_⟩
        · simp [Nat.testBit_land, Nat.testBit_lor, unot_testBit 0x100 h1lt,
            unot_testBit 0x2 h1lt, testBit_lit2, testBit_lit32, testBit_lit256, h5f]
        · simp [Nat.testBit_land, Nat.testBit_lor, unot_testBit 0x100 h5lt,
            testBit_lit32, testBit_lit256]
        · simp [Nat.testBit_land, Nat.testBit_lor, unot_testBit 0x100 h8lt,
            testBit_lit32, testBit_lit256]
        · intro _ i; exact ⟨rfl, rfl⟩
  · intro h1
    simp only [step]
    rw [if_pos h1]

/-- C4 witness: the reset supervisor-mode hart executes sret and every
claimed postcondition holds on the returned context. -/
theorem c4_sret_witness :
    ctx0.prv = 1 ∧
    (∃ c, step ext0 ctx0 mem0 Op.sret = .ok c mem0 ∧
      c.pc = ctx0.sepc ∧
      c.prv = (if ctx0.sstatus.testBit 8 = true then 1 else 0) ∧
      c.sstatus.testBit 1 = ctx0.sstatus.testBit 5 ∧
      c.sstatus.testBit 5 = true ∧
      c.sstatus.testBit 8 = false ∧
      (ctx0.sstatus.testBit 8 = false →
        ∀ i, (c.line i).tag = 2 ^ 63 - 1 ∧ (c.i_line i).tag = 2 ^ 63 - 1)) :=
  ⟨rfl, (c4_sret ext0 ctx0 mem0).1 rfl⟩

@[simp] theorem translateCacheMiss_lr_value (m : Mem) (ctx : Context)
    (addr : Nat) (write : Bool) :
    (translateCacheMiss m ctx addr write).1.lr_value = ctx.lr_value := by
  simp only [translateCacheMiss]
  repeat' split
  all_goals rfl

@[simp] theorem ptrVaddrX_lr_value (m : Mem) (ctx : Context) (addr : Nat) :
    (ptrVaddrX m ctx addr).1.lr_value = ctx.lr_value := by
  simp only [ptrVaddrX]
  split
  · simp
  · rfl

theorem ptrVaddrX_pair_lr_value {m : Mem} {ctx : Context} {addr : Nat}
    {c : Context} {r : Option Nat} (h : ptrVaddrX m ctx addr = (c, r)) :
    c.lr_value = ctx.lr_value := by
  have hh := congrArg (fun p => p.1.lr_value) h
  simpa using hh.symm

/-- C5: store-conditional.  When the effective address is aligned and
translates for write, the store is performed and the write-back helper
receives 0 exactly when the address equals the reservation address and
the memory cell matches the reservation value; in every other case the
write-back helper receives 1 and memory is unchanged.  Both the word and
the doubleword variants are covered. -/
theorem c5_sc (ext : Ext) (ctx : Context) (m : Mem) (rd rs1 rs2 : Fin 32) :
    (ctx.registers rs1 &&& 3 = 0 →
      ∀ c1 paddr, ptrVaddrX m ctx (ctx.registers rs1) = (c1, some paddr) →
        ((ctx.registers rs1 = ctx.lr_addr ∧
            readBytes m paddr 4 = ctx.lr_value % M32 →
          step ext ctx m (Op.scW rd rs1 rs2) =
            .ok (setReg c1 rd 0)
              (writeBytes m paddr (ctx.registers rs2 % M32) 4)) ∧
         (¬(ctx.registers rs1 = ctx.lr_addr ∧
            readBytes m paddr 4 = ctx.lr_value % M32) →
          ∃ cf, step ext ctx m (Op.scW rd rs1 rs2) =
            .ok (setReg cf rd 1) m))) ∧
    (ctx.registers rs1 &&& 7 = 0 →
      ∀ c1 paddr, ptrVaddrX m ctx (ctx.registers rs1) = (c1, some paddr) →
        ((ctx.registers rs1 = ctx.lr_addr ∧
            readBytes m paddr 8 = ctx.lr_value % M64 →
          step ext ctx m (Op.scD rd rs1 rs2) =
            .ok (setReg c1 rd 0)
              (writeBytes m paddr (ctx.registers rs2 % M64) 8)) ∧
         (¬(ctx.registers rs1 = ctx.lr_addr ∧
            readBytes m paddr 8 = ctx.lr_value % M64) →
          ∃ cf, step ext ctx m (Op.scD rd rs1 rs2) =
            .ok (setReg cf rd 1) m))) := by
  constructor
  · intro hal c1 paddr hT
    have hlv : c1.lr_value = ctx.lr_value := ptrVaddrX_pair_lr_value hT
    constructor
    · rintro ⟨heq, hcas⟩
      simp only [step]
      rw [if_neg (by simp [hal]), if_neg (by simp [heq]), hT]
      dsimp only
      rw [hlv, if_pos hcas]
    · intro hn
      by_cases heq : ctx.registers rs1 = ctx.lr_addr
      · have hcf : readBytes m paddr 4 ≠ ctx.lr_value % M32 :=
          fun hc => hn ⟨heq, hc⟩
        refine ⟨c1, ?_⟩
        simp only [step]
        rw [if_neg (by simp [hal]), if_neg (by simp [heq]), hT]
        dsimp only
        rw [hlv, if_neg hcf]
      · refine ⟨ctx, ?_⟩
        simp only [step]
        rw [if_neg (by simp [hal]), if_pos heq]
  · intro hal c1 paddr hT
    have hlv : c1.lr_value = ctx.lr_value := ptrVaddrX_pair_lr_value hT
    constructor
    · rintro ⟨heq, hcas⟩
      simp only [step]
      rw [if_neg (by simp [hal]), if_neg (by simp [heq]), hT]
      dsimp only
      rw [hlv, if_pos hcas]
    · intro hn
      by_cases heq : ctx.registers rs1 = ctx.lr_addr
      · have hcf : readBytes m paddr 8 ≠ ctx.lr_value % M64 :=
          fun hc => hn ⟨heq, hc⟩
        refine ⟨c1, ?_⟩
        simp only [step]
        rw [if_neg (by simp [hal]), if_neg (by simp [heq]), hT]
        dsimp only
        rw [hlv, if_neg hcf]
      · refine ⟨ctx, ?_⟩
        simp only [step]
        rw [if_neg (by simp [hal]), if_pos heq]

/-- A hart whose D-cache line for page 0 is primed writable, so that a
store-conditional to address 0 hits the fast path with physical address
0; the reservation covers address 0 with value 0. -/
def ctxC5 : Context := { ctx0 with line := fun _ => { tag := 0, paddr := 0 } }

/-- The context ptr_vaddr_x returns on the primed hart: only the local
instruction counter has advanced. -/
def ctxC5m : Context := { ctxC5 with minstret := 1 }

/-- C5 witness: on the primed hart a sc.w to address 0 matches the
reservation, the compare-and-exchange succeeds, the store is performed
and the write-back helper receives 0. -/
theorem c5_sc_witness :
    ctxC5.registers 1 &&& 3 = 0 ∧
    ptrVaddrX mem0 ctxC5 (ctxC5.registers 1) = (ctxC5m, some 0) ∧
    (ctxC5.registers 1 = ctxC5.lr_addr ∧
      readBytes mem0 0 4 = ctxC5.lr_value % M32) ∧
    step ext0 ctxC5 mem0 (Op.scW 2 1 3) =
      .ok (setReg ctxC5m 2 0) (writeBytes mem0 0 (ctxC5.registers 3 % M32) 4) :=
  ⟨rfl, rfl, ⟨rfl, rfl⟩,
    ((c5_sc ext0 ctxC5 mem0 2 1 3).1 rfl ctxC5m 0 rfl).1 ⟨rfl, rfl⟩⟩

/-- C10: a store-conditional whose aligned effective address differs from
the reservation address short-circuits before any address translation:
it returns success with the write-back helper receiving 1, memory is the
same object, and the returned context differs from the input at most in
the destination register, so the L0 caches and the reservation are
untouched and no page fault can arise. -/
theorem c10_sc_short_circuit (ext : Ext) (ctx : Context) (m : Mem)
    (rd rs1 rs2 : Fin 32) :
    (ctx.registers rs1 &&& 3 = 0 → ctx.registers rs1 ≠ ctx.lr_addr →
      step ext ctx m (Op.scW rd rs1 rs2) = .ok (setReg ctx rd 1) m) ∧
    (ctx.registers rs1 &&& 7 = 0 → ctx.registers rs1 ≠ ctx.lr_addr →
      step ext ctx m (Op.scD rd rs1 rs2) = .ok (setReg ctx rd 1) m) ∧
    (setReg ctx rd 1).line = ctx.line ∧
    (setReg ctx rd 1).i_line = ctx.i_line ∧
    (setReg ctx rd 1).lr_addr = ctx.lr_addr ∧
    (setReg ctx rd 1).lr_value = ctx.lr_value := by
  refine ⟨?_, ?_, ?_, ?_, ?_, ?_⟩
  · intro hal hne
    simp only [step]
    rw [if_neg (by simp [hal]), if_pos hne]
  · intro hal hne
    simp only [step]
    rw [if_neg (by simp [hal]), if_pos hne]
  all_goals (unfold setReg; split <;> rfl)

/-- A hart holding a reservation on address 8 while the scrutinised
store-conditional targets address 0. -/
def ctxC10 : Context := { ctx0 with lr_addr := 8 }

/-- C10 witness: on that hart a sc.w to address 0 is aligned, misses the
reservation, and returns 1 through the write-back helper with memory and
reservation untouched. -/
theorem c10_sc_witness :
    (ctxC10.registers 1 &&& 3 = 0 ∧ ctxC10.registers 1 ≠ ctxC10.lr_addr) ∧
    step ext0 ctxC10 mem0 (Op.scW 2 1 3) = .ok (setReg ctxC10 2 1) mem0 :=
  ⟨⟨rfl, by decide⟩,
    (c10_sc_short_circuit ext0 ctxC10 mem0 2 1 3).1 rfl (by decide)⟩

theorem and_unot_4095 (x : Nat) (h : x < M64) :
    x &&& unot 4095 = 4096 * (x / 4096) := by
  apply Nat.eq_of_testBit_eq
  intro i
  rw [Nat.testBit_land]
  have hr : 4096 * (x / 4096) = (x >>> 12) <<< 12 := by
    rw [Nat.shiftRight_eq_div_pow, Nat.shiftLeft_eq]
    omega
  rw [hr, Nat.testBit_shiftLeft, Nat.testBit_shiftRight]
  by_cases h64 : i < 64
  · rw [unot_testBit 4095 h64]
    rw [show (4095 : Nat) = 2 ^ 12 - 1 by norm_num, Nat.testBit_two_pow_sub_one]
    by_cases h12 : i < 12
    · simp [h12, Nat.not_le.mpr h12]
    · have h12a : 12 ≤ i := Nat.not_lt.mp h12
      have : 12 + (i - 12) = i := by omega
      simp [h12, h12a, this, ge_iff_le]
  · have hx : x.testBit i = false := Nat.testBit_lt_two_pow (lt_of_lt_of_le h (by
      have : (64 : Nat) ≤ i := Nat.not_lt.mp h64
      calc (M64 : Nat) = 2 ^ 64 := rfl
        _ ≤ 2 ^ i := Nat.pow_le_pow_right (by norm_num) this))
    by_cases h12a : 12 ≤ i
    · have hi : 12 + (i - 12) = i := by omega
      rw [hi, hx]
      simp [hx]
    · simp [hx, h12a]

theorem samePage_iff (x y : Nat) (hx : x < M64) (hy : y < M64) :
    x &&& unot 4095 = y &&& unot 4095 ↔ x / 4096 = y / 4096 := by
  rw [and_unot_4095 x hx, and_unot_4095 y hy]
  omega

theorem wadd_stay (pc k : Nat) (hpc : pc < M64) (hk : 0 < k) (hk4 : k ≤ 4)
    (hpg : wadd pc k / 4096 = pc / 4096) : wadd pc k = pc + k := by
  have hM : M64 = 18446744073709551616 := by norm_num [M64]
  unfold wadd at *
  rw [hM] at hpc hpg ⊢
  omega

/-- fn decode_instr: fetch 16 bits at pc; a low pair 0b11 selects a
32-bit instruction whose upper parcel comes from pc_next when pc sits on
the last halfword of its page, otherwise from pc + 2; the decoders of
the riscv crate live outside this tree, so the 32-bit decoder dec and
the compressed decoder decC are taken as parameters.  Returns the
decoded pair and the advanced pc. -/
def decodeInstr (m : Mem) (dec decC : Nat → Op) (pc pcNext : Nat) :
    (Op × Bool) × Nat :=
  let bits := readMem16 m pc
  if bits &&& 3 = 3 then
    let hiBits :=
      if pc &&& 4095 = 4094 then readMem16 m pcNext
      else readMem16 m (wadd pc 2)
    let bits32 := (hiBits <<< 16) ||| bits
    ((dec bits32, false), wadd pc 4)
  else
    ((decC bits, true), wadd pc 2)

/-- The loop of fn decode_block, with fuel making termination explicit:
decode an instruction, stop after pushing it when it can change control
flow (the predicate ccf, a riscv crate method outside this tree, is a
parameter) or when the advanced pc has left the page of start_pc,
otherwise push it and continue.  2048 units of fuel cover a whole 4 KiB
page of 2-byte instructions. -/
def decodeLoop (fuel : Nat) (m : Mem) (dec decC : Nat → Op)
    (ccf : Op → Bool) (startPc pc pcNext : Nat) : List (Op × Bool) × Nat :=
  match fuel with
  | 0 => ([], pc)
  | fuel + 1 =>
    match decodeInstr m dec decC pc pcNext with
    | ((op, c), pc2) =>
      if ccf op = true ∨ pc2 &&& unot 4095 ≠ startPc &&& unot 4095 then
        ([(op, c)], pc2)
      else
        match decodeLoop fuel m dec decC ccf startPc pc2 pcNext with
        | (l, pf) => ((op, c) :: l, pf)

/-- fn decode_block: run the decode loop from pc and return the decoded
ops together with start_pc and the final pc. -/
def decodeBlock (m : Mem) (dec decC : Nat → Op) (ccf : Op → Bool)
    (pc pcNext : Nat) : List (Op × Bool) × Nat × Nat :=
  match decodeLoop 2048 m dec decC ccf pc pc pcNext with
  | (l, pcEnd) => (l, pc, pcEnd)

/-- The shape decode_block promises: a non-empty chain in which every
element before the last neither changes control flow nor leaves the
starting page at its next fetch address, and the last element either
changes control flow or is the final instruction fetched before the next
fetch address leaves the starting page. -/
inductive DecChain (m : Mem) (dec decC : Nat → Op) (ccf : Op → Bool)
    (startPc pcNext : Nat) : Nat → List (Op × Bool) × Nat → Prop where
  | last : ∀ pc op c pc2,
      decodeInstr m dec decC pc pcNext = ((op, c), pc2) →
      (ccf op = true ∨ pc2 &&& unot 4095 ≠ startPc &&& unot 4095) →
      DecChain m dec decC ccf startPc pcNext pc ([(op, c)], pc2)
  | cons : ∀ pc op c pc2 l pf,
      decodeInstr m dec decC pc pcNext = ((op, c), pc2) →
      ccf op = false →
      pc2 &&& unot 4095 = startPc &&& unot 4095 →
      DecChain m dec decC ccf startPc pcNext pc2 (l, pf) →
      DecChain m dec decC ccf startPc pcNext pc ((op, c) :: l, pf)

theorem decodeInstr_pc {m : Mem} {dec decC : Nat → Op} {pc pcNext : Nat}
    {op : Op} {c : Bool} {pc2 : Nat}
    (h : decodeInstr m dec decC pc pcNext = ((op, c), pc2)) :
    pc2 = wadd pc 2 ∨ pc2 = wadd pc 4 := by
  unfold decodeInstr at h
  dsimp only at h
  repeat' split at h
  all_goals (injection h with h1 h2; subst h2; simp)

theorem decodeLoop_chain (m : Mem) (dec decC : Nat → Op) (ccf : Op → Bool)
    (startPc pcNext : Nat) (hs : startPc < M64) :
    ∀ fuel pc, pc < M64 → pc / 4096 = startPc / 4096 →
      startPc / 4096 * 4096 + 4096 ≤ pc + 2 * fuel →
      DecChain m dec decC ccf startPc pcNext pc
        (decodeLoop fuel m dec decC ccf startPc pc pcNext) := by
  intro fuel
  induction fuel with
  | zero =>
    intro pc hpc hpage hfuel
    exfalso
    have hdm := Nat.div_add_mod pc 4096
    have hm : pc % 4096 < 4096 := Nat.mod_lt _ (by norm_num)
    omega
  | succ fuel ih =>
    intro pc hpc hpage hfuel
    simp only [decodeLoop]
    rcases hdi : decodeInstr m dec decC pc pcNext with ⟨⟨op, c⟩, pc2⟩
    dsimp only
    by_cases hbr : ccf op = true ∨ pc2 &&& unot 4095 ≠ startPc &&& unot 4095
    · rw [if_pos hbr]
      exact DecChain.last pc op c pc2 hdi hbr
    · rw [if_neg hbr]
      push_neg at hbr
      obtain ⟨hccf, hpg⟩ := hbr
      have hccf2 : ccf op = false := by
        cases hcv : ccf op
        · rfl
        · exact absurd hcv hccf
      have hpc2lt : pc2 < M64 := by
        rcases decodeInstr_pc hdi with h2 | h2 <;>
          (rw [h2]; exact Nat.mod_lt _ (by norm_num [M64]))
      have hpg2 : pc2 / 4096 = startPc / 4096 :=
        (samePage_iff pc2 startPc hpc2lt hs).mp hpg
      have hpgpc : pc2 / 4096 = pc / 4096 := by rw [hpg2, hpage]
      have hstep : pc2 = pc + 2 ∨ pc2 = pc + 4 := by
        rcases decodeInstr_pc hdi with h2 | h2
        · left
          rw [h2]
          exact wadd_stay pc 2 hpc (by norm_num) (by norm_num)
            (by rw [← h2]; exact hpgpc)
        · right
          rw [h2]
          exact wadd_stay pc 4 hpc (by norm_num) (by norm_num)
            (by rw [← h2]; exact hpgpc)
      have hfe : startPc / 4096 * 4096 + 4096 ≤ pc2 + 2 * fuel := by omega
      have hrec := ih pc2 hpc2lt hpg2 hfe
      rcases hdl : decodeLoop fuel m dec decC ccf startPc pc2 pcNext with ⟨l, pf⟩
      rw [hdl] at hrec
      exact DecChain.cons pc op c pc2 l pf hdi hccf2 hpg hrec

/-- C8: for every starting pc, decode_block (with the riscv crate
decoder and the can_change_control_flow predicate abstracted as
parameters) terminates within the fuel bound and returns start_pc, a
final pc, and a non-empty op sequence forming a DecChain: only the last
op can change control flow, every earlier op keeps the next fetch inside
the starting 4 KiB page, and the last op either changes control flow or
is the final instruction fetched before the next fetch leaves that
page. -/
theorem c8_decode_block (m : Mem) (dec decC : Nat → Op) (ccf : Op → Bool)
    (pc pcNext : Nat) (hpc : pc < M64) :
    ∃ l pcEnd, decodeBlock m dec decC ccf pc pcNext = (l, pc, pcEnd) ∧
      l ≠ [] ∧ DecChain m dec decC ccf pc pcNext pc (l, pcEnd) := by
  have hfe : pc / 4096 * 4096 + 4096 ≤ pc + 2 * 2048 := by
    have := Nat.div_mul_le_self pc 4096
    omega
  have h := decodeLoop_chain m dec decC ccf pc pcNext hpc 2048 pc hpc rfl hfe
  rcases hdl : decodeLoop 2048 m dec decC ccf pc pc pcNext with ⟨l, pcEnd⟩
  rw [hdl] at h
  refine ⟨l, pcEnd, ?_, ?_, h⟩
  · simp [decodeBlock, hdl]
  · cases h <;> simp

/-- C8 witness: from pc 0 on zeroed memory, with a decoder returning
ecall and a predicate treating every op as a control-flow change, the
block decoder returns a non-empty chain. -/
theorem c8_decode_block_witness :
    (0 : Nat) < M64 ∧
    ∃ l pcEnd,
      decodeBlock mem0 (fun _ => Op.ecall) (fun _ => Op.ecall)
        (fun _ => true) 0 0 = (l, 0, pcEnd) ∧
      l ≠ [] ∧
      DecChain mem0 (fun _ => Op.ecall) (fun _ => Op.ecall)
        (fun _ => true) 0 0 0 (l, pcEnd) :=
  ⟨by norm_num [M64],
   c8_decode_block mem0 (fun _ => Op.ecall) (fun _ => Op.ecall)
     (fun _ => true) 0 0 (by norm_num [M64])⟩

end R2VM
